import Mathlib

/-!
Shallow embedding of the rig-automation graph-builder core
(`cortex/cortexmodules/rotationreader.py`, `fkdrivenbyangle.py`,
`correctivejoint.py`) and theorems about its specification claims.

The Maya scene graph is modelled as an explicit arena of named nodes
(`Scene`), mutated by explicit state passing.  Python methods that mutate
`self` and the scene become functions `State → Scene → State × Scene`.
Python's "log an error and return" aborts are modelled as typed error
values; Python exceptions raised by the external API (`AttributeError`,
`IndexError`, node-resolution failures) are modelled by `PyErr`.
-/

namespace Cortex

/-- A rotation axis; the source's `VALID_AXIS = ('x', 'y', 'z')`. -/
inductive Axis
  | x | y | z
deriving DecidableEq, Repr

/-- Maya node types created by the modules under study. -/
inductive NodeKind
  | transform | joint | circleCtl
  | multMatrix | decomposeMatrix | quatToEuler
  | network | animCurve
deriving DecidableEq, Repr

/-- Keyframe tangent types used by the source (`spline` and `linear`). -/
inductive TanType
  | spline | linear
deriving DecidableEq, Repr

/-- Anim-curve infinity (extrapolation) modes; Maya's default is
`constant` (clamped); the source switches curves to `linear`. -/
inductive InfType
  | constant | linear
deriving DecidableEq, Repr

/-- Python exceptions that the embedded code can raise. -/
inductive PyErr
  | indexError | attributeError | typeError | mayaNodeError
deriving DecidableEq, Repr

/-- Abort of `RotationReader.add_axis` when the named metadata record does
not exist (`log.error(... doesn't exists. Abort.); return` in the source;
the spec's taxonomy calls this `NotFoundError`). -/
inductive RRErr
  | notFoundError
deriving DecidableEq, Repr

/-- The `axis` argument of the source, which accepts a string or a
tuple/list of strings. -/
inductive AxisArg
  | str (s : String)
  | list (l : List String)
deriving DecidableEq, Repr

/-- The channels driven by one axis in `axis_data`: a channel name or a
tuple/list of channel names. -/
inductive ChanArg
  | str (s : String)
  | list (l : List String)
deriving DecidableEq, Repr

/-- One keyframe of a driven anim curve. -/
structure Key where
  time : ℚ
  value : ℚ
  inTan : TanType
  outTan : TanType
deriving DecidableEq, Repr

/-- State of an anim-curve node: its keyframes and extrapolation modes. -/
structure CurveData where
  keys : List Key := []
  preInf : InfType := .constant
  postInf : InfType := .constant
deriving DecidableEq, Repr

/-- World transforms: invertible 4×4 rational matrices. -/
abbrev Mat := (Matrix (Fin 4) (Fin 4) ℚ)ˣ

instance : DecidableEq Mat := fun a b =>
  decidable_of_iff ((a : Matrix (Fin 4) (Fin 4) ℚ) = b) Units.eq_iff

/-- Maya Euler rotation orders, with Maya's integer encoding of the
`rotateOrder` / `inputRotateOrder` enum. -/
inductive MRotateOrder
  | xyz | yzx | zxy | xzy | yxz | zyx
deriving DecidableEq, Repr

/-- Maya's integer value for each rotation order (0 = xyz, 1 = yzx,
2 = zxy, 3 = xzy, 4 = yxz, 5 = zyx). -/
def MRotateOrder.mayaValue : MRotateOrder → Nat
  | .xyz => 0 | .yzx => 1 | .zxy => 2 | .xzy => 3 | .yxz => 4 | .zyx => 5

/-- One node of the scene graph.  Fields beyond `id`, `name`, `kind` model
the attributes that the embedded code reads or writes: the metadata
(`network`) record's typed fields with their lock state, a `quatToEuler`
node's rotation order, a `multMatrix` node's constant `matrixIn[0]` value
and an anim-curve's data and driver/driven bindings. -/
structure SceneNode where
  id : Nat
  name : String
  kind : NodeKind
  parent : Option Nat := none
  inputRotateOrder : Nat := 0
  mmOffset : Option Mat := none
  net_constructor_name : Option String := none
  net_cn_locked : Bool := false
  net_matrix_info : Option Nat := none
  net_mi_locked : Bool := false
  net_extracted_x : Option Nat := none
  net_ex_locked : Bool := false
  net_extracted_y : Option Nat := none
  net_ey_locked : Bool := false
  net_extracted_z : Option Nat := none
  net_ez_locked : Bool := false
  net_drive : Option Nat := none
  net_drive_locked : Bool := false
  curve : CurveData := {}
  drivenPlug : Option String := none
  driverPlug : Option String := none

/-- A dg plug: a node name paired with an attribute path on that node. -/
abbrev Plug := String × String

/-- The scene: the arena of nodes (in creation order), the dg connections
(source plug → destination plug, destination-unique because `>>` connects
with force), and the world transform of each named node. -/
structure Scene where
  nodes : List SceneNode := []
  dg : List (Plug × Plug) := []
  world : String → Mat := fun _ => 1
  nextId : Nat := 0

/-- Python `'{0}'.format(v)` on an optional string (`None` prints as
`"None"`). -/
def pyStr : Option String → String
  | none => "None"
  | some s => s

/-- Resolve a name to its (first) node, like `pm.PyNode(name)`. -/
def Scene.findByName (s : Scene) (nm : String) : Option SceneNode :=
  s.nodes.find? (fun n => n.name = nm)

/-- `pm.objExists(name)`. -/
def Scene.objExists (s : Scene) (nm : String) : Bool :=
  (s.findByName nm).isSome

/-- The id of the node with the given name, if any. -/
def Scene.findIdByName (s : Scene) (nm : String) : Option Nat :=
  (s.findByName nm).map (fun n => n.id)

/-- The node with the given id, if any. -/
def Scene.nodeById (s : Scene) (i : Nat) : Option SceneNode :=
  s.nodes.find? (fun n => n.id = i)

/-- The current name of the node with the given id (`str(PyNode)`). -/
def Scene.nodeName (s : Scene) (i : Nat) : String :=
  ((s.nodeById i).map (fun n => n.name)).getD ""

/-- Maya uniquifies a clashing requested name instead of failing. -/
def Scene.freshName (s : Scene) (nm : String) : String :=
  if s.objExists nm then nm ++ toString s.nextId else nm

/-- Append a freshly built node; `mk` receives the new id and the
(uniquified) name.  Returns the id, the actual name and the new scene. -/
def Scene.addNode (s : Scene) (nm : String) (mk : Nat → String → SceneNode) :
    Nat × String × Scene :=
  let actual := s.freshName nm
  (s.nextId, actual,
    { s with nodes := s.nodes ++ [mk s.nextId actual], nextId := s.nextId + 1 })

/-- `pm.createNode(kind, n=nm)`. -/
def Scene.createNode (s : Scene) (kind : NodeKind) (nm : String) :
    Nat × String × Scene :=
  s.addNode nm (fun i actual => { id := i, name := actual, kind := kind })

/-- Rewrite the node with the given id through `f`. -/
def Scene.updateNode (s : Scene) (i : Nat) (f : SceneNode → SceneNode) : Scene :=
  { s with nodes := s.nodes.map (fun n => if n.id = i then f n else n) }

/-- Connect `src >> dst` between dg plugs; pymel's `>>` connects with
force, so any previous connection into `dst` is replaced. -/
def Scene.dgConnect (s : Scene) (src dst : Plug) : Scene :=
  { s with dg := s.dg.filter (fun c => ¬(c.2 = dst)) ++ [(src, dst)] }

/-- `node.setMatrix(m)` on an unparented node: its world transform. -/
def Scene.setWorld (s : Scene) (nm : String) (m : Mat) : Scene :=
  { s with world := fun n => if n = nm then m else s.world n }

/-- `child.setParent(parent)`. -/
def Scene.setParent (s : Scene) (child parentId : Nat) : Scene :=
  s.updateNode child (fun n => { n with parent := some parentId })

/-- Number of nodes of a given kind in the scene. -/
def Scene.countKind (s : Scene) (k : NodeKind) : Nat :=
  (s.nodes.filter (fun n => n.kind = k)).length

/-- The anim curve currently driving the given destination plug
(`pm.PyNode(driven).inputs()[0]`, data part). -/
def Scene.curveFor (s : Scene) (plug : String) : Option CurveData :=
  (s.nodes.find? (fun n => n.drivenPlug = some plug)).map (fun n => n.curve)

/-- Rewrite one node when it is bound to the given driven plug. -/
def curveUpd (plug : String) (f : CurveData → CurveData) (n : SceneNode) :
    SceneNode :=
  if n.drivenPlug = some plug then { n with curve := f n.curve } else n

/-- Rename one node when it is bound to the given driven plug. -/
def curveRen (plug nm : String) (n : SceneNode) : SceneNode :=
  if n.drivenPlug = some plug then { n with name := nm } else n

/-- Rewrite the curve data of the node bound to the given driven plug. -/
def Scene.updCurveAt (s : Scene) (plug : String) (f : CurveData → CurveData) :
    Scene :=
  { s with nodes := s.nodes.map (curveUpd plug f) }

/-- `pm.rename` of the node bound to the given driven plug. -/
def Scene.renameCurveAt (s : Scene) (plug : String) (nm : String) : Scene :=
  { s with nodes := s.nodes.map (curveRen plug nm) }

/-- Modelled from the spec: `transforms.get_matrix_offset(reference,
target)` lives outside the covered sources (module
`EXTERNAL.DEV_reel.ggilbaud.transforms`); per spec §4.1 it "returns
target's transform expressed in reference's local space (target_world
composed with inverse(reference_world))", pure and side-effect-free. -/
def get_matrix_offset (s : Scene) (reference target : String) : Mat :=
  s.world target * (s.world reference)⁻¹

/-- `'x'.upper()` for an axis. -/
def Axis.upper : Axis → String
  | .x => "X" | .y => "Y" | .z => "Z"

/-- The axis as its source-level string. -/
def Axis.str : Axis → String
  | .x => "x" | .y => "y" | .z => "z"

/-- Membership test against `VALID_AXIS`. -/
def parseAxis (s : String) : Option Axis :=
  if s = "x" then some .x else if s = "y" then some .y
  else if s = "z" then some .z else none

/-- `RotationReader.get_valid_axis`: a string or an iterable of strings is
filtered down to the valid axes, in order, duplicates kept; an empty
result becomes `None`. -/
def get_valid_axis : AxisArg → Option (List Axis)
  | .str a =>
    let v := (parseAxis a).toList
    if v.isEmpty then none else some v
  | .list l =>
    let v := l.filterMap parseAxis
    if v.isEmpty then none else some v

/-- Python's `axis == 'x'` on the raw `add_axis` argument (false whenever
the argument is a tuple or list). -/
def AxisArg.eqStr : AxisArg → String → Bool
  | .str s, t => s = t
  | .list _, _ => false

/-- In-memory state of a `RotationReader` instance: the input properties
and the `_output_data` / `_maya_data` output attributes (node ids). -/
structure RotationReader where
  name : Option String := none
  target : Option String := none
  reference : Option String := none
  axis : Option (List Axis) := none
  maintain_offset : Bool := false
  matrix_info : Option Nat := none
  extracted_x : Option Nat := none
  extracted_y : Option Nat := none
  extracted_z : Option Nat := none
  maya_data : Option Nat := none

/-- The `output_data['extracted_<a>']` slot for an axis. -/
def RotationReader.extractedGet (rr : RotationReader) : Axis → Option Nat
  | .x => rr.extracted_x
  | .y => rr.extracted_y
  | .z => rr.extracted_z

/-- Store a freshly created extraction operator in the slot of its axis. -/
def RotationReader.extractedSet (rr : RotationReader) (a : Axis) (v : Nat) :
    RotationReader :=
  match a with
  | .x => { rr with extracted_x := some v }
  | .y => { rr with extracted_y := some v }
  | .z => { rr with extracted_z := some v }

/-- The `target` property setter: the value is kept only when the node
exists, else it defaults to `None` with a logged error. -/
def setNodeRef (s : Scene) (v : Option String) : Option String :=
  match v with
  | none => none
  | some nm => if s.objExists nm then some nm else none

/-- `RotationReader.get_local_space`: builds the multMatrix/decomposeMatrix
pair producing target-in-reference-space, unless `target` or `reference`
is unset (abort with a logged error) or `matrix_info` is already set. -/
def RotationReader.get_local_space (rr : RotationReader) (s : Scene) :
    RotationReader × Scene :=
  match rr.target with
  | none => (rr, s)
  | some t =>
    match rr.reference with
    | none => (rr, s)
    | some r =>
      if rr.matrix_info.isSome then (rr, s)
      else
        let c1 := s.createNode .multMatrix (pyStr rr.name ++ "_toLocal_MMAT")
        let mmId := c1.1
        let mmName := c1.2.1
        let c2 := c1.2.2.createNode .decomposeMatrix
          (pyStr rr.name ++ "_localSpaceInfo_DMAT")
        let dmId := c2.1
        let dmName := c2.2.1
        let s2 := c2.2.2
        let rr1 := { rr with matrix_info := some dmId }
        let off :=
          if rr.maintain_offset then
            (s2.updateNode mmId
              (fun n => { n with mmOffset := some (get_matrix_offset s2 r t) }), 1)
          else (s2, 0)
        let s3 := off.1
        let si := off.2
        let s4 := s3.dgConnect (t, "worldMatrix[0]")
          (mmName, "matrixIn[" ++ toString si ++ "]")
        let s5 := s4.dgConnect (r, "worldInverseMatrix[0]")
          (mmName, "matrixIn[" ++ toString (si + 1) ++ "]")
        let s6 := s5.dgConnect (mmName, "matrixSum") (dmName, "inputMatrix")
        (rr1, s6)

/-- `quat_to_euler.inputRotateOrder.set(v)`. -/
def setRotOrder (v : Nat) (n : SceneNode) : SceneNode :=
  { n with inputRotateOrder := v }

/-- One turn of the `extract_value` loop: create the `quatToEuler`
operator for `a` unless the axis already has one; wire exactly that
axis's quaternion component plus the scalar component into it and set its
rotation order so that the extracted axis sits per the source's mapping
(x → 0, y → 1, z → 2). -/
def RotationReader.extractAxis (mi : Nat) (p : RotationReader × Scene)
    (a : Axis) : RotationReader × Scene :=
  match p with
  | (rr, s) =>
  if (rr.extractedGet a).isSome then (rr, s)
  else
    let c := s.createNode .quatToEuler
      (pyStr rr.name ++ "_extractRot" ++ a.upper ++ "_QTE")
    let qId := c.1
    let qName := c.2.1
    let s1 := c.2.2
    let miName := s1.nodeName mi
    let s2 := s1.dgConnect (miName, "outputQuat.outputQuat" ++ a.upper)
      (qName, "inputQuat.inputQuat" ++ a.upper)
    let s3 := s2.dgConnect (miName, "outputQuat.outputQuatW")
      (qName, "inputQuat.inputQuatW")
    let rotOrder : Nat := match a with | .x => 0 | .y => 1 | .z => 2
    let s4 := s3.updateNode qId (setRotOrder rotOrder)
    (rr.extractedSet a qId, s4)

/-- `RotationReader.extract_value`: aborts with a logged error when
`matrix_info` or `axis` is unset, else runs `extractAxis` over the
requested axes. -/
def RotationReader.extract_value (rr : RotationReader) (s : Scene) :
    RotationReader × Scene :=
  match rr.matrix_info with
  | none => (rr, s)
  | some mi =>
    match rr.axis with
    | none => (rr, s)
    | some axs => axs.foldl (RotationReader.extractAxis mi) (rr, s)

/-- Write and lock the record's `constructor_name` string field
(unlock, set, lock in the source). -/
def writeCN (v : String) (n : SceneNode) : SceneNode :=
  { n with net_constructor_name := some v, net_cn_locked := true }

/-- Connect and lock the record's `matrix_info` message field. -/
def writeMI (v : Nat) (n : SceneNode) : SceneNode :=
  { n with net_matrix_info := some v, net_mi_locked := true }

/-- Connect and lock the record's `extracted_x` message field. -/
def writeEX (v : Nat) (n : SceneNode) : SceneNode :=
  { n with net_extracted_x := some v, net_ex_locked := true }

/-- Connect and lock the record's `extracted_y` message field. -/
def writeEY (v : Nat) (n : SceneNode) : SceneNode :=
  { n with net_extracted_y := some v, net_ey_locked := true }

/-- Connect and lock the record's `extracted_z` message field. -/
def writeEZ (v : Nat) (n : SceneNode) : SceneNode :=
  { n with net_extracted_z := some v, net_ez_locked := true }

/-- `RotationReader.to_maya_data_node`: create the persistent metadata
record `<name>_rotReader_DATA` unless it already exists, then write and
lock `constructor_name` and connect whatever output nodes the instance
holds into the record's message fields. -/
def RotationReader.to_maya_data_node (rr : RotationReader) (s : Scene) :
    RotationReader × Scene :=
  let dataName := pyStr rr.name ++ "_rotReader_DATA"
  let c :=
    if ¬s.objExists dataName then
      let c0 := s.createNode .network dataName
      (c0.1, c0.2.2)
    else
      -- the lookup cannot fail under the guard
      ((s.findIdByName dataName).getD 0, s)
  let md := c.1
  let s1 := c.2
  let s2 := s1.updateNode md (writeCN (pyStr rr.name))
  let s3 := match rr.matrix_info with
    | some v => s2.updateNode md (writeMI v)
    | none => s2
  let s4 := match rr.extracted_x with
    | some v => s3.updateNode md (writeEX v)
    | none => s3
  let s5 := match rr.extracted_y with
    | some v => s4.updateNode md (writeEY v)
    | none => s4
  let s6 := match rr.extracted_z with
    | some v => s5.updateNode md (writeEZ v)
    | none => s5
  ({ rr with maya_data := some md }, s6)

/-- `RotationReader.build`: `get_local_space`, `extract_value`,
`to_maya_data_node` in sequence. -/
def RotationReader.build (rr : RotationReader) (s : Scene) :
    RotationReader × Scene :=
  let p1 := rr.get_local_space s
  let p2 := p1.1.extract_value p1.2
  p2.1.to_maya_data_node p2.2

/-- `RotationReader.add_axis`: aborts (`NotFoundError`) when the named
metadata record does not exist; silently no-ops when the raw argument is
a single axis string whose operator already exists; otherwise rebuilds an
instance from the record's fields, extends it with the new axes and
refreshes the record. -/
def RotationReader.add_axis (s : Scene) (maya_data : String) (axis : AxisArg) :
    Except RRErr (Option RotationReader) × Scene :=
  if ¬s.objExists maya_data then (.error .notFoundError, s)
  else
    -- the lookup cannot fail under the guard
    let nd := (s.findByName maya_data).getD { id := 0, name := "", kind := .network }
    let cn := nd.net_constructor_name
    let mi := nd.net_matrix_info
    if (axis.eqStr "x" && nd.net_extracted_x.isSome)
        || (axis.eqStr "y" && nd.net_extracted_y.isSome)
        || (axis.eqStr "z" && nd.net_extracted_z.isSome) then
      (.ok none, s)
    else
      let rr0 : RotationReader :=
        { name := cn
          axis := get_valid_axis axis
          matrix_info := mi
          extracted_x := nd.net_extracted_x
          extracted_y := nd.net_extracted_y
          extracted_z := nd.net_extracted_z }
      let p1 := rr0.extract_value s
      let p2 := p1.1.to_maya_data_node p1.2
      (.ok (some p2.1), p2.2)

/-- In-memory state of an `FkDrivenByAngle` instance. -/
structure FkDriven where
  name : Option String := none
  target : Option String := none
  reference : Option String := none
  maintain_offset : Option Bool := none
  axis_data : Option (List (Axis × ChanArg)) := none
  buffer : Option Nat := none
  driver : Option Nat := none

/-- The channel names held by a `ChanArg`. -/
def ChanArg.channels : ChanArg → List String
  | .str c => [c]
  | .list l => l

/-- Python truthiness of `self.axis_data.get(driver_axis)`: an empty
string or empty list is falsy. -/
def ChanArg.truthy : ChanArg → Bool
  | .str c => ¬(c = "")
  | .list l => ¬l.isEmpty

/-- Python's `s.rpartition(sep)[0]`: everything before the last separator
(empty when the separator does not occur). -/
def beforeLast (sep : String) (s : String) : String :=
  let parts := s.splitOn sep
  if parts.length ≤ 1 then "" else String.intercalate sep parts.dropLast

/-- Python's `s.rpartition(sep)[2]`: everything after the last separator. -/
def afterLast (sep : String) (s : String) : String :=
  ((s.splitOn sep).getLast?).getD ""

/-- Insert a keyframe, kept sorted by driver value; a key at an existing
driver value replaces the old key (Maya `setDrivenKeyframe` semantics). -/
def insertKey : List Key → Key → List Key
  | [], k => [k]
  | h :: t, k =>
    if k.time < h.time then k :: h :: t
    else if k.time = h.time then k :: t
    else h :: insertKey t k

/-- Rewrite the list element at an index, when present. -/
def modifyAt {α : Type} (f : α → α) : List α → Nat → List α
  | [], _ => []
  | h :: t, 0 => f h :: t
  | h :: t, i + 1 => h :: modifyAt f t i

/-- `pm.setDrivenKeyframe(driven, currentDriver=driver, driverValue=dv,
value=v, inTangentType=tin, outTangentType=tout)`: create (and bind) the
driven anim curve on first use of a destination plug, then add the key. -/
def Scene.setDrivenKeyframe (s : Scene) (driven driver : String) (dv v : ℚ)
    (tin tout : TanType) : Scene :=
  let k : Key := { time := dv, value := v, inTan := tin, outTan := tout }
  match s.curveFor driven with
  | some _ => s.updCurveAt driven (fun c => { c with keys := insertKey c.keys k })
  | none =>
    let c0 := s.addNode (driven.replace "." "_") (fun i nm =>
      { id := i, name := nm, kind := .animCurve,
        drivenPlug := some driven, driverPlug := some driver })
    c0.2.2.updCurveAt driven (fun c => { c with keys := insertKey c.keys k })

/-- The inner body of `connect_rotation_reader_to_driver_dag` for one
driven plug: the three calibration keyframes at (−90, −1), (0, 0),
(90, 1) with spline tangents, then the middle key's tangents forced
linear (key index 1), linear pre/post infinity, and the curve renamed. -/
def Scene.processDriven (s : Scene) (driverName driverPlug driven : String) :
    Scene :=
  let s3 := [((-90 : ℚ), (-1 : ℚ)), (0, 0), (90, 1)].foldl
    (fun sc p => sc.setDrivenKeyframe driven driverPlug p.1 p.2 .spline .spline) s
  match s3.curveFor driven with
  | none => s3
  | some _ =>
    let s4 := s3.updCurveAt driven (fun c =>
      { c with keys := modifyAt (fun k => { k with inTan := .linear }) c.keys 1 })
    let s5 := s4.updCurveAt driven (fun c =>
      { c with keys := modifyAt (fun k => { k with outTan := .linear }) c.keys 1 })
    let s6 := s5.updCurveAt driven (fun c => { c with preInf := .linear })
    let s7 := s6.updCurveAt driven (fun c => { c with postInf := .linear })
    s7.renameCurveAt driven
      (beforeLast "_" driverName ++ "_drive" ++ (afterLast "." driven).toUpper
        ++ "_ANC")

/-- The name of the extraction operator read out of
`rot_reader_output_data['extracted_<axis>']` (formatting `None` when the
slot is empty, as Python does). -/
def extractedName (s : Scene) (rrOut : RotationReader) (a : Axis) : String :=
  match rrOut.extractedGet a with
  | none => "None"
  | some i => s.nodeName i

/-- One turn of the `connect_rotation_reader_to_driver_dag` loop: one
(axis, channels) pair; falsy channel values are skipped. -/
def connectPair (driverName : String) (rrOut : RotationReader) (s : Scene)
    (pr : Axis × ChanArg) : Scene :=
  if pr.2.truthy then
    let driverPlug := extractedName s rrOut pr.1 ++ ".outputRotate" ++ pr.1.upper
    let plugs := pr.2.channels.map (fun c => driverName ++ "." ++ c)
    if plugs.isEmpty then s
    else plugs.foldl (fun sc p => sc.processDriven driverName driverPlug p) s
  else s

/-- `rot_reader_maya_data.drive.unlock()`. -/
def unlockDrive (n : SceneNode) : SceneNode := { n with net_drive_locked := false }

/-- `self.driver.message >> rot_reader_maya_data.drive` followed by
`rot_reader_maya_data.drive.lock()`. -/
def writeDrive (v : Nat) (n : SceneNode) : SceneNode :=
  { n with net_drive := some v, net_drive_locked := true }

/-- `FkDrivenByAngle.connect_rotation_reader_to_driver_dag`: store the
driver into the record's `drive` field, then wire every truthy
(axis, channels) pair through driven curves.  Raises `AttributeError`
when `self.driver` is `None` (`None.message`) and also when `axis_data`
is `None` (`None.iterkeys()`). -/
def FkDriven.connectReader (fk : FkDriven) (rrOut : RotationReader) (md : Nat)
    (s : Scene) : Scene × Option PyErr :=
  let s1 := s.updateNode md unlockDrive
  match fk.driver with
  | none => (s1, some .attributeError)
  | some d =>
    let s2 := s1.updateNode md (writeDrive d)
    match fk.axis_data with
    | none => (s2, some .attributeError)
    | some ad =>
      let dn := s2.nodeName d
      (ad.foldl (connectPair dn rrOut) s2, none)

/-- `FkDrivenByAngle.build_dag`: buffer/NULL, driver, circle control and
joint, parented joint → control → driver → buffer. -/
def FkDriven.build_dag (fk : FkDriven) (s : Scene) : FkDriven × Scene :=
  let c1 := s.createNode .transform (pyStr fk.name ++ "_NULL")
  let c2 := c1.2.2.createNode .transform (pyStr fk.name ++ "_DRV")
  let c3 := c2.2.2.createNode .circleCtl (pyStr fk.name ++ "_CON")
  let c4 := c3.2.2.createNode .joint (pyStr fk.name ++ "_JNT")
  let s4 := c4.2.2
  let s5 := s4.setParent c4.1 c3.1
  let s6 := s5.setParent c3.1 c2.1
  let s7 := s6.setParent c2.1 c1.1
  ({ fk with buffer := some c1.1, driver := some c2.1 }, s7)

/-- `FkDrivenByAngle.build_rotation_reader`: auto-resolve
`maintain_offset` by comparing the frame offset against the identity,
then build a `RotationReader` over the truthy axes of `axis_data`.
`None` (of reference, target or `axis_data`) makes the Python raise. -/
def FkDriven.build_rotation_reader (fk : FkDriven) (s : Scene) :
    Option (FkDriven × RotationReader × Scene) :=
  match fk.reference, fk.target, fk.axis_data with
  | some r, some t, some ad =>
    let mo := if get_matrix_offset s r t = 1 then false else true
    let fk1 := { fk with maintain_offset := some mo }
    let rr0 : RotationReader :=
      { name := fk1.name
        target := setNodeRef s fk1.target
        reference := setNodeRef s fk1.reference
        axis := get_valid_axis
          (.list (((ad.filter (fun pr => pr.2.truthy)).map (fun pr => pr.1.str))))
        maintain_offset := mo }
    let p := rr0.build s
    some (fk1, p.1, p.2)
  | _, _, _ => none

/-- The metadata records connected out of a driver node
(`driver.outputs(type='network')`): records whose `drive` field holds it. -/
def Scene.networkOuts (s : Scene) (driverId : Nat) : List SceneNode :=
  s.nodes.filter (fun n => n.kind = .network && n.net_drive = some driverId)

/-- `FkDrivenByAngle.add_driver_connections`.  The source indexes
`driver.outputs(type='network')[0] if not None else None`; since
`not None` is always true, the index is taken unconditionally and an
empty output list raises `IndexError` — the `if not maya_data` branch
below it is unreachable.  `self.driver` is never assigned, so a
successful extension would still hit `AttributeError` inside
`connect_rotation_reader_to_driver_dag`.  The source's
`if not self.axis_data: return` is a dict-truthiness test, so both an
unset and an empty `axis_data` exit silently before anything else. -/
def FkDriven.add_driver_connections (fk : FkDriven) (driver : String)
    (axis_data : Option (List (Axis × ChanArg))) (s : Scene) :
    FkDriven × Scene × Option PyErr :=
  if ¬s.objExists driver then (fk, s, none)
  else
    let fk1 := { fk with axis_data := axis_data }
    match fk1.axis_data with
    | none => (fk1, s, none)
    | some [] => (fk1, s, none)
    | some ad =>
      let driver_axis : AxisArg := .list (ad.map (fun pr => pr.1.str))
      -- the lookup cannot fail under the guard
      let dId := (s.findIdByName driver).getD 0
      match s.networkOuts dId with
      | [] => (fk1, s, some .indexError)
      | nd :: _ =>
        match RotationReader.add_axis s nd.name driver_axis with
        | (.ok (some rr), s1) =>
          let p := fk1.connectReader rr (rr.maya_data.getD 0) s1
          (fk1, p.1, p.2)
        | (.ok none, s1) => (fk1, s1, some .attributeError)
        | (.error _, s1) => (fk1, s1, some .attributeError)

/-- Modelled from Maya animCurve semantics (external to the repository):
the effective slope at the last key for a `spline` or `linear` end
tangent, which points toward the neighbouring key — the slope of the last
sampled segment.  Zero when fewer than two keys exist. -/
def CurveData.endSlope (c : CurveData) : ℚ :=
  match c.keys.reverse with
  | k2 :: k1 :: _ => (k2.value - k1.value) / (k2.time - k1.time)
  | _ => 0

/-- Modelled from Maya animCurve semantics (external to the repository):
the curve's value at a driver value beyond the last key.  `constant`
(clamped) infinity holds the last key's value; `linear` infinity extends
along the end tangent. -/
def CurveData.postValue (c : CurveData) (t : ℚ) : ℚ :=
  match c.keys.getLast? with
  | none => 0
  | some k =>
    match c.postInf with
    | .constant => k.value
    | .linear => k.value + (t - k.time) * c.endSlope

/-- The line through `(t1, v1)` and `(t2, v2)`, evaluated at `t`. -/
def lineThrough (t1 v1 t2 v2 t : ℚ) : ℚ :=
  v1 + (t - t1) * ((v2 - v1) / (t2 - t1))

/-- In-memory state of a `CorrectiveJoint` instance; `axis_data` maps a
variant identifier to that variant's axis-to-channels map. -/
structure CorrectiveJoint where
  name : Option String := none
  target : Option String := none
  reference : Option String := none
  axis_data : Option (List (String × List (Axis × ChanArg))) := none
  twist_axis : Option String := none

/-- The variant loop of `CorrectiveJoint.build`: per variant, a driven
dag, connection to the shared rotation reader, buffer snapped to the
inherit frame's pose and parented under it.  A raised error aborts. -/
def cjLoop (cjName : String) (target reference : Option String)
    (rr : RotationReader) (inhName : String) (inhId : Nat) :
    List (String × List (Axis × ChanArg)) → FkDriven → Scene →
      Scene × Option PyErr
  | [], _, s => (s, none)
  | (ident, ad) :: rest, fk, s =>
    let fk1 := { fk with name := some (cjName ++ ident), axis_data := some ad }
    let p := fk1.build_dag s
    let fk2 := p.1
    let q := fk2.connectReader rr (rr.maya_data.getD 0) p.2
    match q.2 with
    | some e => (q.1, some e)
    | none =>
      let s1 := q.1
      let bufName := s1.nodeName (fk2.buffer.getD 0)
      let s2 := s1.setWorld bufName (s1.world inhName)
      let s3 := s2.setParent (fk2.buffer.getD 0) inhId
      cjLoop cjName target reference rr inhName inhId rest fk2 s3

/-- `CorrectiveJoint.build`.  Note the order of operations of the source:
the module/inherit/data transforms are created before `target` is ever
resolved, and the twist branch reads `rot_reader.data_node`, an attribute
`RotationReader` does not define (its output dictionary is exposed as
`output_data`), so a configured twist axis raises `AttributeError`. -/
def CorrectiveJoint.build (cj : CorrectiveJoint) (s : Scene) :
    Scene × Option PyErr :=
  let c1 := s.createNode .transform (pyStr cj.name ++ "_module")
  let modName := c1.2.1
  let c2 := c1.2.2.createNode .transform (pyStr cj.name ++ "Inherit_TSF")
  let inhId := c2.1
  let inhName := c2.2.1
  let c3 := c2.2.2.createNode .transform (pyStr cj.name ++ "_DATA")
  let datId := c3.1
  let s3 := c3.2.2
  match cj.target.bind (fun t => s3.findByName t) with
  | none => (s3, some .mayaNodeError)
  | some tgt =>
    let s4 := s3.setWorld inhName (s3.world tgt.name)
    let s5 := s4.setParent inhId c1.1
    let s6 := s5.setParent datId c1.1
    match cj.axis_data with
    | none => (s6, some .attributeError)
    | some variants =>
      let axes := variants.foldl (fun acc v =>
        v.2.foldl (fun acc2 pr =>
          if pr.1 ∈ acc2 then acc2 else acc2 ++ [pr.1]) acc) []
      let rr0 : RotationReader :=
        { name := cj.name
          target := setNodeRef s6 cj.target
          reference := setNodeRef s6 cj.reference
          axis := get_valid_axis (.list (axes.map Axis.str)) }
      let p := rr0.build s6
      let rr1 := p.1
      let fk0 : FkDriven :=
        { target := setNodeRef p.2 cj.target
          reference := setNodeRef p.2 cj.reference }
      let q := cjLoop (pyStr cj.name) fk0.target fk0.reference rr1 inhName inhId
        variants fk0 p.2
      match q.2 with
      | some e => (q.1, some e)
      | none =>
        let s7 := q.1
        let c4 := s7.createNode .decomposeMatrix
          (beforeLast "_" modName ++ "WorldSpace_DMAT")
        let dmName := c4.2.1
        let s8 := c4.2.2
        let s9 := s8.dgConnect (tgt.name, "worldMatrix[0]")
          (dmName, "inputMatrix")
        let s10 := s9.dgConnect (dmName, "outputTranslateX")
          (inhName, "translateX")
        let s11 := s10.dgConnect (dmName, "outputTranslateY")
          (inhName, "translateY")
        let s12 := s11.dgConnect (dmName, "outputTranslateZ")
          (inhName, "translateZ")
        match cj.twist_axis with
        | none => (s12, none)
        | some tw =>
          if tw = "" then (s12, none)
          else
            let rr2 := { rr1 with axis := get_valid_axis (.str tw) }
            let p2 := rr2.extract_value s12
            -- `rot_reader.data_node[...]` raises: no such attribute
            (p2.2, some .attributeError)

/-- The driven curve produced by the calibration loop: samples
(−90, −1), (0, 0), (90, 1), spline end tangents, linear middle tangents,
linear extrapolation on both sides. -/
def calibrationCurve : CurveData :=
  { keys :=
      [ { time := -90, value := -1, inTan := .spline, outTan := .spline }
      , { time := 0, value := 0, inTan := .linear, outTan := .linear }
      , { time := 90, value := 1, inTan := .spline, outTan := .spline } ]
    preInf := .linear
    postInf := .linear }

/-- All driven plugs written by one `connect_rotation_reader_to_driver_dag`
call on a driver named `dn` with the given `axis_data`. -/
def PlugsOf (dn : String) (ad : List (Axis × ChanArg)) : List String :=
  ad.foldr
    (fun pr acc =>
      if pr.2.truthy then pr.2.channels.map (fun c => dn ++ "." ++ c) ++ acc
      else acc) []

section ListLemmas

variable {α β : Type}

theorem find?_map_pred (g : α → α) (p : α → Bool) (hp : ∀ a, p (g a) = p a) :
    ∀ l : List α, (l.map g).find? p = (l.find? p).map g := by
  intro l
  induction l with
  | nil => rfl
  | cons a t ih =>
    by_cases h : p a
    · simp [List.find?, hp, h]
    · simp only [List.map_cons, List.find?]
      rw [hp a]
      simp [h, ih]

theorem find?_append_some (p : α → Bool) {l1 : List α} (l2 : List α) {a : α}
    (h : l1.find? p = some a) : (l1 ++ l2).find? p = some a := by
  induction l1 with
  | nil => exact absurd h (by simp)
  | cons b t ih =>
    by_cases hb : p b
    · simp_all [List.find?]
    · simp only [List.find?, hb] at h ⊢
      exact ih h

theorem find?_append_none (p : α → Bool) {l1 : List α} (l2 : List α)
    (h : l1.find? p = none) : (l1 ++ l2).find? p = l2.find? p := by
  induction l1 with
  | nil => rfl
  | cons b t ih =>
    by_cases hb : p b
    · simp_all [List.find?]
    · simp only [List.find?, hb] at h ⊢
      exact ih h

theorem filter_length_map (g : α → α) (p : α → Bool) (hp : ∀ a, p (g a) = p a) :
    ∀ l : List α, ((l.map g).filter p).length = (l.filter p).length := by
  intro l
  induction l with
  | nil => rfl
  | cons a t ih =>
    by_cases h : p a <;> simp [List.filter, hp, h, ih]

end ListLemmas

section SceneLemmas

/-- Node updates keep the node count. -/
theorem length_updateNode (s : Scene) (i : Nat) (f : SceneNode → SceneNode) :
    (s.updateNode i f).nodes.length = s.nodes.length := by
  simp [Scene.updateNode]

/-- Per-kind counts are stable under kind-preserving node updates. -/
theorem countKind_updateNode (s : Scene) (i : Nat) (f : SceneNode → SceneNode)
    (hf : ∀ n, (f n).kind = n.kind) (k : NodeKind) :
    (s.updateNode i f).countKind k = s.countKind k := by
  unfold Scene.countKind Scene.updateNode
  exact filter_length_map _ _ (by intro n; by_cases h : n.id = i <;> simp [h, hf]) _

/-- Name lookup commutes with name-preserving node updates. -/
theorem findByName_updateNode (s : Scene) (i : Nat) (f : SceneNode → SceneNode)
    (hf : ∀ n, (f n).name = n.name) (nm : String) :
    (s.updateNode i f).findByName nm =
      (s.findByName nm).map (fun n => if n.id = i then f n else n) := by
  unfold Scene.findByName Scene.updateNode
  exact find?_map_pred _ _ (by intro n; by_cases h : n.id = i <;> simp [h, hf]) _

/-- Existence is stable under name-preserving node updates. -/
theorem objExists_updateNode (s : Scene) (i : Nat) (f : SceneNode → SceneNode)
    (hf : ∀ n, (f n).name = n.name) (nm : String) :
    (s.updateNode i f).objExists nm = s.objExists nm := by
  unfold Scene.objExists
  rw [findByName_updateNode s i f hf nm]
  cases s.findByName nm <;> simp

/-- A successful name lookup survives adding a node. -/
theorem findByName_addNode_some (s : Scene) (nm req : String)
    (mk : Nat → String → SceneNode) {n : SceneNode}
    (h : s.findByName nm = some n) :
    (s.addNode req mk).2.2.findByName nm = some n := by
  unfold Scene.findByName at h ⊢
  unfold Scene.addNode
  exact find?_append_some _ _ h

/-- A failed name lookup after adding a node inspects only the new node. -/
theorem findByName_addNode_none (s : Scene) (nm req : String)
    (mk : Nat → String → SceneNode) (h : s.findByName nm = none) :
    (s.addNode req mk).2.2.findByName nm =
      if (mk s.nextId (s.freshName req)).name = nm
      then some (mk s.nextId (s.freshName req)) else none := by
  unfold Scene.findByName at h ⊢
  unfold Scene.addNode
  rw [find?_append_none _ _ h]
  by_cases hn : (mk s.nextId (s.freshName req)).name = nm <;>
    simp [List.find?, hn]

/-- Adding a node grows the count of its kind by one and leaves the other
kinds alone. -/
theorem countKind_addNode (s : Scene) (req : String)
    (mk : Nat → String → SceneNode) (k : NodeKind) :
    (s.addNode req mk).2.2.countKind k =
      s.countKind k + (if (mk s.nextId (s.freshName req)).kind = k then 1 else 0) := by
  unfold Scene.countKind Scene.addNode
  by_cases h : (mk s.nextId (s.freshName req)).kind = k <;>
    simp [List.filter_append, List.filter, h]

/-- Adding a node adds one node. -/
theorem length_addNode (s : Scene) (req : String)
    (mk : Nat → String → SceneNode) :
    (s.addNode req mk).2.2.nodes.length = s.nodes.length + 1 := by
  simp [Scene.addNode]

end SceneLemmas

section SkipLemmas

/-- `get_local_space` aborts (or skips) exactly when `target` or
`reference` is unset or `matrix_info` is already populated. -/
theorem gls_skip (rr : RotationReader) (s : Scene)
    (h : rr.target = none ∨ rr.reference = none ∨ rr.matrix_info.isSome) :
    rr.get_local_space s = (rr, s) := by
  unfold RotationReader.get_local_space
  rcases h with h | h | h
  · rw [h]
  · cases ht : rr.target
    · rfl
    · rw [h]
  · cases ht : rr.target
    · rfl
    · cases hr : rr.reference
      · rfl
      · simp [h]

/-- `extract_value` aborts when `matrix_info` is unset. -/
theorem ev_skip_no_mi (rr : RotationReader) (s : Scene)
    (h : rr.matrix_info = none) : rr.extract_value s = (rr, s) := by
  unfold RotationReader.extract_value
  rw [h]

end SkipLemmas

/-- A concrete two-frame scene: transforms `T` and `R`. -/
def sceneTR : Scene :=
  ((({} : Scene).createNode .transform "T").2.2.createNode .transform "R").2.2

/-- `sceneTR` plus a driver transform `w_DRV` with no attached metadata. -/
def sceneDrv : Scene := (sceneTR.createNode .transform "w_DRV").2.2

/-- C7: `add_axis` against a name that resolves to no metadata record
aborts with the not-found error and leaves the scene untouched — no nodes
are created. -/
theorem c7_add_axis_missing_record_aborts (s : Scene) (md : String)
    (a : AxisArg) (h : s.objExists md = false) :
    RotationReader.add_axis s md a = (.error .notFoundError, s) := by
  simp [RotationReader.add_axis, h]

/-- C7 witness: the abort at a concrete missing record name. -/
theorem c7_witness :
    sceneTR.objExists "ghost_rotReader_DATA" = false ∧
    RotationReader.add_axis sceneTR "ghost_rotReader_DATA" (.str "z") =
      (.error .notFoundError, sceneTR) :=
  ⟨by decide, c7_add_axis_missing_record_aborts _ _ _ (by decide)⟩

/-- C3 (amended): `CorrectiveJoint.build` performs no upfront validation:
whenever `target` is unresolved it still creates the module, inherit and
data transforms first and only then aborts, with a node-resolution
exception rather than any `PreconditionError`. -/
theorem c3_unresolved_target_creates_nodes_then_aborts
    (cj : CorrectiveJoint) (s : Scene) (h : cj.target = none) :
    (cj.build s).2 = some PyErr.mayaNodeError ∧
    (cj.build s).1.nodes.length = s.nodes.length + 3 := by
  unfold CorrectiveJoint.build
  simp [h, Scene.createNode, Scene.addNode]

/-- C3 counterexample: a concrete composite build whose target does not
resolve; contrary to the claim, the build does not abort before any scene
node is created — three transforms are created first, and the abort is a
raw node error, not a `PreconditionError`. -/
theorem c3_counterexample :
    sceneTR.nodes.length = 2 ∧
    (({ name := some "m", reference := some "R",
        axis_data := some [("North", [(Axis.z, ChanArg.list ["tx", "ty"])])] } :
        CorrectiveJoint).build sceneTR).1.nodes.length = 5 ∧
    (({ name := some "m", reference := some "R",
        axis_data := some [("North", [(Axis.z, ChanArg.list ["tx", "ty"])])] } :
        CorrectiveJoint).build sceneTR).2 = some PyErr.mayaNodeError := by
  refine ⟨rfl, rfl, rfl⟩

/-- C3 witness: the amended statement at the concrete unresolved-target
setup. -/
theorem c3_witness :
    ({ name := some "w", reference := some "R" } :
        CorrectiveJoint).target = none ∧
    ((({ name := some "w", reference := some "R" } :
        CorrectiveJoint).build sceneTR).2 = some PyErr.mayaNodeError ∧
      (({ name := some "w", reference := some "R" } :
        CorrectiveJoint).build sceneTR).1.nodes.length =
        sceneTR.nodes.length + 3) :=
  ⟨rfl, c3_unresolved_target_creates_nodes_then_aborts _ sceneTR rfl⟩

/-- C5: `add_driver_connections` on an existing node with no attached
metadata record raises `IndexError` (from `outputs(type='network')[0]` on
an empty list) instead of the intended graceful not-a-driver abort; the
`if not maya_data` branch is unreachable because `if not None` is always
true. -/
theorem c5_no_metadata_raises_indexError
    (fk : FkDriven) (driver : String) (ad : List (Axis × ChanArg)) (s : Scene)
    (hne : ad ≠ [])
    (h1 : s.objExists driver = true)
    (h2 : s.networkOuts ((s.findIdByName driver).getD 0) = []) :
    fk.add_driver_connections driver (some ad) s =
      ({ fk with axis_data := some ad }, s, some PyErr.indexError) := by
  cases ad with
  | nil => exact absurd rfl hne
  | cons hd tl => simp [FkDriven.add_driver_connections, h1, h2]

/-- C5 witness: the `IndexError` at a concrete driver node that has no
attached metadata. -/
theorem c5_witness :
    ([(Axis.z, ChanArg.str "rx")] : List (Axis × ChanArg)) ≠ [] ∧
    sceneDrv.objExists "w_DRV" = true ∧
    sceneDrv.networkOuts ((sceneDrv.findIdByName "w_DRV").getD 0) = [] ∧
    (({} : FkDriven).add_driver_connections "w_DRV"
        (some [(Axis.z, ChanArg.str "rx")]) sceneDrv) =
      ({ ({} : FkDriven) with axis_data := some [(Axis.z, ChanArg.str "rx")] },
        sceneDrv, some PyErr.indexError) :=
  ⟨by decide, by decide, rfl,
    c5_no_metadata_raises_indexError _ _ _ _ (by decide) (by decide) rfl⟩

/-- C8: the driven-mapping builder auto-resolves `maintain_offset` from
the frame offset: equal target and reference world transforms (offset
equal to the identity) give `False`, anything else gives `True`. -/
theorem c8_maintain_offset_auto_resolve
    (fk : FkDriven) (s : Scene) (t r : String) (ad : List (Axis × ChanArg))
    (ht : fk.target = some t) (hr : fk.reference = some r)
    (ha : fk.axis_data = some ad) :
    (s.world t = s.world r →
      (fk.build_rotation_reader s).map (fun o => o.1.maintain_offset) =
        some (some false)) ∧
    (¬s.world t = s.world r →
      (fk.build_rotation_reader s).map (fun o => o.1.maintain_offset) =
        some (some true)) := by
  constructor <;> intro h
  · have hc : get_matrix_offset s r t = 1 := by
      unfold get_matrix_offset
      rw [h, mul_inv_eq_one]
    simp [FkDriven.build_rotation_reader, ht, hr, ha, hc]
  · have hc : ¬get_matrix_offset s r t = 1 := by
      unfold get_matrix_offset
      rw [mul_inv_eq_one]
      exact h
    simp [FkDriven.build_rotation_reader, ht, hr, ha, hc]

/-- C8 witness: identical world transforms at a concrete scene give
`maintain_offset = False`. -/
theorem c8_witness :
    sceneTR.world "T" = sceneTR.world "R" ∧
    (({ name := some "w", target := some "T", reference := some "R",
        axis_data := some [(Axis.x, ChanArg.str "tx")] } :
        FkDriven).build_rotation_reader sceneTR).map
      (fun o => o.1.maintain_offset) = some (some false) :=
  ⟨rfl, (c8_maintain_offset_auto_resolve _ sceneTR "T" "R" _ rfl rfl rfl).1 rfl⟩

/-- C10: a `RotationReader` whose `target` or `reference` did not resolve
still runs `to_maya_data_node`: `build` skips the local-space and
extraction stages (no multMatrix/decomposeMatrix/quatToEuler is created)
but creates or reuses the persistent record `<name>_rotReader_DATA` and
writes and locks its `constructor_name` field — the failed build is not
atomic. -/
theorem c10_failed_build_still_writes_record
    (rr : RotationReader) (s : Scene)
    (h1 : rr.target = none ∨ rr.reference = none)
    (h2 : rr.matrix_info = none)
    (h3 : rr.extracted_x = none) (h4 : rr.extracted_y = none)
    (h5 : rr.extracted_z = none) :
    (rr.build s).2.objExists (pyStr rr.name ++ "_rotReader_DATA") = true ∧
    ((rr.build s).2.findByName (pyStr rr.name ++ "_rotReader_DATA")).map
      (fun n => (n.net_constructor_name, n.net_cn_locked)) =
      some (some (pyStr rr.name), true) ∧
    (rr.build s).2.countKind .multMatrix = s.countKind .multMatrix ∧
    (rr.build s).2.countKind .decomposeMatrix = s.countKind .decomposeMatrix ∧
    (rr.build s).2.countKind .quatToEuler = s.countKind .quatToEuler ∧
    (rr.build s).2.nodes.length = s.nodes.length +
      (if s.objExists (pyStr rr.name ++ "_rotReader_DATA") then 0 else 1) := by
  have hg : rr.get_local_space s = (rr, s) := gls_skip _ _ (h1.imp id Or.inl)
  have he : rr.extract_value s = (rr, s) := ev_skip_no_mi rr s h2
  have hb : rr.build s = rr.to_maya_data_node s := by
    simp only [RotationReader.build, hg, he]
  rw [hb]
  unfold RotationReader.to_maya_data_node
  rw [h2, h3, h4, h5]
  by_cases hex : s.objExists (pyStr rr.name ++ "_rotReader_DATA")
  · obtain ⟨n0, hn0⟩ : ∃ n0,
        s.findByName (pyStr rr.name ++ "_rotReader_DATA") = some n0 := by
      have := hex
      unfold Scene.objExists at this
      exact Option.isSome_iff_exists.mp this
    have hmd : (s.findIdByName (pyStr rr.name ++ "_rotReader_DATA")).getD 0 = n0.id := by
      unfold Scene.findIdByName
      rw [hn0]
      rfl
    simp only [hex, not_true_eq_false, if_false, reduceIte]
    refine ⟨?_, ?_, ?_, ?_, ?_, ?_⟩
    · rw [objExists_updateNode _ _ (writeCN (pyStr rr.name)) (fun _ => rfl)]
      exact hex
    · rw [findByName_updateNode _ _ (writeCN (pyStr rr.name)) (fun _ => rfl), hn0]
      simp [hmd, writeCN]
    · exact countKind_updateNode _ _ (writeCN (pyStr rr.name)) (fun _ => rfl) _
    · exact countKind_updateNode _ _ (writeCN (pyStr rr.name)) (fun _ => rfl) _
    · exact countKind_updateNode _ _ (writeCN (pyStr rr.name)) (fun _ => rfl) _
    · rw [length_updateNode]
      simp [hex]
  · have hnone : s.findByName (pyStr rr.name ++ "_rotReader_DATA") = none := by
      have := hex
      unfold Scene.objExists at this
      exact Option.not_isSome_iff_eq_none.mp (by simpa using this)
    have hfr : s.freshName (pyStr rr.name ++ "_rotReader_DATA") =
        pyStr rr.name ++ "_rotReader_DATA" := by
      unfold Scene.freshName
      simp [hex]
    have hexf : s.objExists (pyStr rr.name ++ "_rotReader_DATA") = false := by
      simpa using hex
    simp only [hexf, Bool.false_eq_true, not_false_eq_true, if_true,
      Scene.createNode]
    have hfindNew :
        (s.addNode (pyStr rr.name ++ "_rotReader_DATA")
          (fun i actual => { id := i, name := actual, kind := .network })).2.2.findByName
            (pyStr rr.name ++ "_rotReader_DATA") =
          some { id := s.nextId, name := pyStr rr.name ++ "_rotReader_DATA",
                 kind := .network } := by
      rw [findByName_addNode_none _ _ _ _ hnone]
      simp [hfr]
    refine ⟨?_, ?_, ?_, ?_, ?_, ?_⟩
    · rw [objExists_updateNode _ _ (writeCN (pyStr rr.name)) (fun _ => rfl)]
      have h1' : ((s.addNode (pyStr rr.name ++ "_rotReader_DATA")
          (fun i actual =>
            { id := i, name := actual, kind := .network })).2.2.findByName
            (pyStr rr.name ++ "_rotReader_DATA")).isSome = true := by
        rw [hfindNew]
        rfl
      exact h1'
    · rw [findByName_updateNode _ _ (writeCN (pyStr rr.name)) (fun _ => rfl), hfindNew]
      simp [Scene.addNode, writeCN]
    · rw [countKind_updateNode _ _ (writeCN (pyStr rr.name)) (fun _ => rfl) _,
        countKind_addNode]
      simp [hfr]
    · rw [countKind_updateNode _ _ (writeCN (pyStr rr.name)) (fun _ => rfl) _,
        countKind_addNode]
      simp [hfr]
    · rw [countKind_updateNode _ _ (writeCN (pyStr rr.name)) (fun _ => rfl) _,
        countKind_addNode]
      simp [hfr]
    · rw [length_updateNode, length_addNode]
      simp [hex]

/-- A fresh reader named `q` whose target and reference never resolved. -/
def rrQ : RotationReader := { name := some "q" }

/-- C10 witness: the fresh reader `rrQ` with unresolved target and
reference, built over `sceneTR`. -/
theorem c10_witness :
    (rrQ.target = none ∨ rrQ.reference = none) ∧
    ((rrQ.build sceneTR).2.objExists (pyStr rrQ.name ++ "_rotReader_DATA") = true ∧
      ((rrQ.build sceneTR).2.findByName (pyStr rrQ.name ++ "_rotReader_DATA")).map
        (fun n => (n.net_constructor_name, n.net_cn_locked)) =
        some (some (pyStr rrQ.name), true) ∧
      (rrQ.build sceneTR).2.countKind .multMatrix =
        sceneTR.countKind .multMatrix ∧
      (rrQ.build sceneTR).2.countKind .decomposeMatrix =
        sceneTR.countKind .decomposeMatrix ∧
      (rrQ.build sceneTR).2.countKind .quatToEuler =
        sceneTR.countKind .quatToEuler ∧
      (rrQ.build sceneTR).2.nodes.length = sceneTR.nodes.length +
        (if sceneTR.objExists (pyStr rrQ.name ++ "_rotReader_DATA")
          then 0 else 1)) :=
  ⟨Or.inl rfl,
    c10_failed_build_still_writes_record rrQ sceneTR (Or.inl rfl) rfl rfl rfl rfl⟩

/-- A fully valid composite setup over `sceneTR` with a configured twist
axis (matching the class docstring's own example shape). -/
def cjTwist : CorrectiveJoint :=
  { name := some "m", target := some "T", reference := some "R",
    axis_data := some [("North", [(Axis.z, ChanArg.list ["tx", "ty"])])],
    twist_axis := some "x" }

/-- The same setup with no twist axis configured. -/
def cjNoTwist : CorrectiveJoint := { cjTwist with twist_axis := none }

/-- C4: contrary to the claim (and to the source's own docstring, whose
example configures `twist_axis = 'x'` and describes a successful build),
a composite build with a twist axis configured always aborts with
`AttributeError` — the twist step reads `rot_reader.data_node`, an
attribute `RotationReader` does not define — while the identical build
without a twist axis merely logs a notice and completes. -/
theorem c4_twist_step_raises_attributeError :
    (cjTwist.build sceneTR).2 = some PyErr.attributeError ∧
    (cjNoTwist.build sceneTR).2 = none := by
  exact ⟨rfl, rfl⟩

section MoreSceneLemmas

/-- Nonexistence is the same as a failed lookup. -/
theorem objExists_false_iff (s : Scene) (nm : String) :
    s.objExists nm = false ↔ s.findByName nm = none := by
  unfold Scene.objExists
  cases s.findByName nm <;> simp

/-- A free requested name is used as-is. -/
theorem freshName_of_not_exists (s : Scene) (nm : String)
    (h : s.objExists nm = false) : s.freshName nm = nm := by
  unfold Scene.freshName
  simp [h]

/-- Adding a node leaves the dg connections alone. -/
theorem dg_addNode (s : Scene) (req : String) (mk : Nat → String → SceneNode) :
    (s.addNode req mk).2.2.dg = s.dg := rfl

/-- Updating a node leaves the dg connections alone. -/
theorem dg_updateNode (s : Scene) (i : Nat) (f : SceneNode → SceneNode) :
    (s.updateNode i f).dg = s.dg := rfl

/-- Connecting leaves the nodes alone. -/
theorem findByName_dgConnect (s : Scene) (src dst : Plug) (nm : String) :
    (s.dgConnect src dst).findByName nm = s.findByName nm := rfl

/-- Creating a node leaves the dg connections alone. -/
theorem dg_createNode (s : Scene) (k : NodeKind) (nm : String) :
    (s.createNode k nm).2.2.dg = s.dg := rfl

/-- The dg connections after a forced connect. -/
theorem dg_dgConnect (s : Scene) (src dst : Plug) :
    (s.dgConnect src dst).dg = s.dg.filter (fun c => ¬(c.2 = dst)) ++ [(src, dst)] :=
  rfl

/-- A successful id lookup survives adding a node. -/
theorem nodeById_addNode_some (s : Scene) (i : Nat) (req : String)
    (mk : Nat → String → SceneNode) {n : SceneNode}
    (h : s.nodeById i = some n) :
    (s.addNode req mk).2.2.nodeById i = some n := by
  unfold Scene.nodeById at h ⊢
  unfold Scene.addNode
  exact find?_append_some _ _ h

/-- A node's name is unchanged by adding another node. -/
theorem nodeName_addNode_of_found (s : Scene) (i : Nat) (req : String)
    (mk : Nat → String → SceneNode) (h : (s.nodeById i).isSome) :
    (s.addNode req mk).2.2.nodeName i = s.nodeName i := by
  obtain ⟨n, hn⟩ := Option.isSome_iff_exists.mp h
  unfold Scene.nodeName
  rw [hn, nodeById_addNode_some s i req mk hn]

/-- A node's name is unchanged by creating another node. -/
theorem nodeName_createNode_of_found (s : Scene) (i : Nat) (k : NodeKind)
    (nm : String) (h : (s.nodeById i).isSome) :
    (s.createNode k nm).2.2.nodeName i = s.nodeName i :=
  nodeName_addNode_of_found s i nm _ h

/-- A filter that drops nothing. -/
theorem filter_eq_self' {α : Type} (p : α → Bool) (l : List α)
    (h : ∀ a ∈ l, p a = true) : l.filter p = l := by
  induction l with
  | nil => rfl
  | cons a t ih =>
    rw [List.filter_cons, if_pos (h a (by simp))]
    rw [ih (fun b hb => h b (by simp [hb]))]

end MoreSceneLemmas

/-- C9: a newly requested axis gets a `quatToEuler` operator wired from
exactly that axis's quaternion component plus the scalar (W) component of
the decomposition stage, with `inputRotateOrder` set to the Maya value of
the order that the source maps the axis to: x → XYZ (0), y → YZX (1),
z → ZXY (2) — the mapping the source's comment describes as placing the
extracted axis last to prevent flipping at 90 degrees. -/
theorem c9_extraction_operator_configuration
    (rr : RotationReader) (s : Scene) (mi : Nat) (a : Axis)
    (hmi : rr.matrix_info = some mi) (hax : rr.axis = some [a])
    (hnew : rr.extractedGet a = none)
    (hfresh : s.objExists (pyStr rr.name ++ "_extractRot" ++ a.upper ++ "_QTE") = false)
    (hmiEx : (s.nodeById mi).isSome)
    (hdg : ∀ c ∈ s.dg, ¬c.2.1 = pyStr rr.name ++ "_extractRot" ++ a.upper ++ "_QTE") :
    ((rr.extract_value s).2.findByName
        (pyStr rr.name ++ "_extractRot" ++ a.upper ++ "_QTE")).map
      (fun n => (n.kind, n.inputRotateOrder)) =
      some (NodeKind.quatToEuler,
        (match a with
          | .x => MRotateOrder.xyz | .y => MRotateOrder.yzx
          | .z => MRotateOrder.zxy).mayaValue) ∧
    (rr.extract_value s).2.dg = s.dg ++
      [((s.nodeName mi, "outputQuat.outputQuat" ++ a.upper),
        (pyStr rr.name ++ "_extractRot" ++ a.upper ++ "_QTE",
          "inputQuat.inputQuat" ++ a.upper)),
       ((s.nodeName mi, "outputQuat.outputQuatW"),
        (pyStr rr.name ++ "_extractRot" ++ a.upper ++ "_QTE",
          "inputQuat.inputQuatW"))] ∧
    (rr.extract_value s).1.extractedGet a = some s.nextId := by
  have hfind0 : s.findByName (pyStr rr.name ++ "_extractRot" ++ a.upper ++ "_QTE") = none :=
    (objExists_false_iff _ _).mp hfresh
  have hfr := freshName_of_not_exists _ _ hfresh
  have hq : (s.createNode NodeKind.quatToEuler
      (pyStr rr.name ++ "_extractRot" ++ a.upper ++ "_QTE")).2.1 =
      pyStr rr.name ++ "_extractRot" ++ a.upper ++ "_QTE" := by
    simp [Scene.createNode, Scene.addNode, hfr]
  have hmiN : (s.createNode NodeKind.quatToEuler
      (pyStr rr.name ++ "_extractRot" ++ a.upper ++ "_QTE")).2.2.nodeName mi =
      s.nodeName mi :=
    nodeName_createNode_of_found _ _ _ _ hmiEx
  have hfold : rr.extract_value s = RotationReader.extractAxis mi (rr, s) a := by
    unfold RotationReader.extract_value
    rw [hmi, hax]
    rfl
  rw [hfold]
  simp only [RotationReader.extractAxis, hnew, Option.isSome_none,
    Bool.false_eq_true, if_false]
  refine ⟨?_, ?_, ?_⟩
  · rw [findByName_updateNode _ _ (setRotOrder _) (fun _ => rfl)]
    rw [findByName_dgConnect, findByName_dgConnect]
    rw [Scene.createNode, findByName_addNode_none _ _ _ _ hfind0]
    rw [hfr]
    simp only [if_pos rfl]
    cases a <;> simp [Scene.createNode, Scene.addNode, setRotOrder,
      MRotateOrder.mayaValue]
  · have hd12 : ¬("inputQuat.inputQuat" ++ a.upper = "inputQuat.inputQuatW") := by
      cases a <;> decide
    rw [dg_updateNode]
    rw [dg_dgConnect, dg_dgConnect, dg_createNode, hq, hmiN]
    rw [List.filter_append]
    rw [filter_eq_self' _ s.dg (by
      intro c hc
      simp only [decide_eq_true_eq]
      intro hcontra
      exact hdg c hc (by rw [hcontra]))]
    rw [filter_eq_self' _ s.dg (by
      intro c hc
      simp only [decide_eq_true_eq]
      intro hcontra
      exact hdg c hc (by rw [hcontra]))]
    simp only [List.filter_cons, List.filter_nil]
    rw [if_pos (by
      simp only [decide_eq_true_eq]
      intro hcontra
      exact hd12 (congrArg Prod.snd hcontra))]
    simp
  · cases a <;> simp [RotationReader.extractedSet, RotationReader.extractedGet,
      Scene.createNode, Scene.addNode]

/-- A scene holding only a decomposition stage, node id 0. -/
def sceneMI : Scene :=
  (({} : Scene).createNode .decomposeMatrix "n_localSpaceInfo_DMAT").2.2

/-- A reader about to extract axis x from the decomposition stage. -/
def rrC9 : RotationReader :=
  { name := some "n", matrix_info := some 0, axis := some [Axis.x] }

/-- C9 witness: the x-axis extraction at a concrete scene. -/
theorem c9_witness :
    rrC9.matrix_info = some 0 ∧ rrC9.axis = some [Axis.x] ∧
    rrC9.extractedGet .x = none ∧
    sceneMI.objExists (pyStr rrC9.name ++ "_extractRot" ++ Axis.x.upper ++ "_QTE") = false ∧
    (sceneMI.nodeById 0).isSome ∧
    (((rrC9.extract_value sceneMI).2.findByName
        (pyStr rrC9.name ++ "_extractRot" ++ Axis.x.upper ++ "_QTE")).map
      (fun n => (n.kind, n.inputRotateOrder)) =
      some (NodeKind.quatToEuler,
        (match Axis.x with
          | .x => MRotateOrder.xyz | .y => MRotateOrder.yzx
          | .z => MRotateOrder.zxy).mayaValue) ∧
    (rrC9.extract_value sceneMI).2.dg = sceneMI.dg ++
      [((sceneMI.nodeName 0, "outputQuat.outputQuat" ++ Axis.x.upper),
        (pyStr rrC9.name ++ "_extractRot" ++ Axis.x.upper ++ "_QTE",
          "inputQuat.inputQuat" ++ Axis.x.upper)),
       ((sceneMI.nodeName 0, "outputQuat.outputQuatW"),
        (pyStr rrC9.name ++ "_extractRot" ++ Axis.x.upper ++ "_QTE",
          "inputQuat.inputQuatW"))] ∧
    (rrC9.extract_value sceneMI).1.extractedGet .x = some sceneMI.nextId) :=
  ⟨rfl, rfl, rfl, by decide, by decide,
    c9_extraction_operator_configuration rrC9 sceneMI 0 .x rfl rfl rfl
      (by decide) (by decide)
      (by simp [sceneMI, Scene.createNode, Scene.addNode])⟩

section RebuildLemmas

/-- The input-side fields of a reader (everything `build` reads but never
rewrites except `matrix_info`). -/
def RotationReader.core4 (rr : RotationReader) :
    Option String × Option String × Option String × Option (List Axis) :=
  (rr.name, rr.target, rr.reference, rr.axis)

/-- `get_local_space` only ever writes `matrix_info`. -/
theorem gls_core4 (rr : RotationReader) (s : Scene) :
    (rr.get_local_space s).1.core4 = rr.core4 ∧
    (rr.get_local_space s).1.extracted_x = rr.extracted_x ∧
    (rr.get_local_space s).1.extracted_y = rr.extracted_y ∧
    (rr.get_local_space s).1.extracted_z = rr.extracted_z ∧
    (rr.get_local_space s).1.maya_data = rr.maya_data := by
  unfold RotationReader.get_local_space
  cases htt : rr.target
  · simp
  · cases hrr : rr.reference
    · simp
    · by_cases hmm : rr.matrix_info.isSome <;>
        simp [hmm, RotationReader.core4, htt, hrr]

/-- After `get_local_space`, either an input is unresolved or the
decomposition stage exists. -/
theorem gls_P (rr : RotationReader) (s : Scene) :
    (rr.get_local_space s).1.target = none ∨
    (rr.get_local_space s).1.reference = none ∨
    (rr.get_local_space s).1.matrix_info.isSome := by
  unfold RotationReader.get_local_space
  cases htt : rr.target
  · simp [htt]
  · cases hrr : rr.reference
    · simp [hrr]
    · by_cases hmm : rr.matrix_info.isSome
      · simp [htt, hrr, hmm]
      · simp [hmm]

/-- One extraction turn rewrites only the per-axis output slots. -/
theorem extractAxis_core (mi : Nat) (p : RotationReader × Scene) (a : Axis) :
    (RotationReader.extractAxis mi p a).1.core4 = p.1.core4 ∧
    (RotationReader.extractAxis mi p a).1.matrix_info = p.1.matrix_info ∧
    (RotationReader.extractAxis mi p a).1.maya_data = p.1.maya_data := by
  obtain ⟨rr, sc⟩ := p
  by_cases h : (rr.extractedGet a).isSome
  · simp [RotationReader.extractAxis, h]
  · cases a <;>
      simp [RotationReader.extractAxis, h, RotationReader.extractedSet,
        RotationReader.core4]

/-- One extraction turn never clears an output slot. -/
theorem extractAxis_mono (mi : Nat) (p : RotationReader × Scene) (a b : Axis)
    (h : (p.1.extractedGet b).isSome) :
    ((RotationReader.extractAxis mi p a).1.extractedGet b).isSome := by
  obtain ⟨rr, sc⟩ := p
  by_cases ha : (rr.extractedGet a).isSome
  · simpa [RotationReader.extractAxis, ha] using h
  · cases a <;> cases b <;>
      simp_all [RotationReader.extractAxis, RotationReader.extractedSet,
        RotationReader.extractedGet]

/-- One extraction turn fills its own axis slot. -/
theorem extractAxis_sets (mi : Nat) (p : RotationReader × Scene) (a : Axis) :
    ((RotationReader.extractAxis mi p a).1.extractedGet a).isSome := by
  obtain ⟨rr, sc⟩ := p
  by_cases ha : (rr.extractedGet a).isSome
  · simp [RotationReader.extractAxis, ha]
  · cases a <;>
      simp_all [RotationReader.extractAxis, RotationReader.extractedSet,
        RotationReader.extractedGet]

/-- An extraction turn whose axis is already extracted is a no-op. -/
theorem extractAxis_skip (mi : Nat) (p : RotationReader × Scene) (a : Axis)
    (h : (p.1.extractedGet a).isSome) :
    RotationReader.extractAxis mi p a = p := by
  obtain ⟨rr, sc⟩ := p
  simp [RotationReader.extractAxis, h]

/-- The extraction fold preserves filled slots. -/
theorem ev_fold_mono (mi : Nat) (axs : List Axis) :
    ∀ (p : RotationReader × Scene) (b : Axis), (p.1.extractedGet b).isSome →
      ((axs.foldl (RotationReader.extractAxis mi) p).1.extractedGet b).isSome := by
  induction axs with
  | nil => intro p b h; exact h
  | cons hd tl ih =>
    intro p b h
    exact ih _ b (extractAxis_mono mi p hd b h)

/-- After the extraction fold, every requested axis has an operator. -/
theorem ev_fold_all_some (mi : Nat) (axs : List Axis) :
    ∀ (p : RotationReader × Scene) (a : Axis), a ∈ axs →
      ((axs.foldl (RotationReader.extractAxis mi) p).1.extractedGet a).isSome := by
  induction axs with
  | nil => intro p a h; cases h
  | cons hd tl ih =>
    intro p a h
    rcases List.mem_cons.mp h with h | h
    · subst h
      exact ev_fold_mono mi tl _ a (extractAxis_sets mi p a)
    · exact ih _ a h

/-- The extraction fold with every axis already extracted is a no-op. -/
theorem ev_fold_skip (mi : Nat) (axs : List Axis) :
    ∀ (p : RotationReader × Scene),
      (∀ a ∈ axs, (p.1.extractedGet a).isSome) →
      axs.foldl (RotationReader.extractAxis mi) p = p := by
  induction axs with
  | nil => intro p _; rfl
  | cons hd tl ih =>
    intro p h
    have h1 : RotationReader.extractAxis mi p hd = p :=
      extractAxis_skip mi p hd (h hd (by simp))
    simp only [List.foldl_cons, h1]
    exact ih p (fun a ha => h a (by simp [ha]))

/-- The extraction fold rewrites only the per-axis output slots. -/
theorem ev_fold_core (mi : Nat) (axs : List Axis) :
    ∀ (p : RotationReader × Scene),
      (axs.foldl (RotationReader.extractAxis mi) p).1.core4 = p.1.core4 ∧
      (axs.foldl (RotationReader.extractAxis mi) p).1.matrix_info = p.1.matrix_info ∧
      (axs.foldl (RotationReader.extractAxis mi) p).1.maya_data = p.1.maya_data := by
  induction axs with
  | nil => intro p; exact ⟨rfl, rfl, rfl⟩
  | cons hd tl ih =>
    intro p
    have h1 := extractAxis_core mi p hd
    have h2 := ih (RotationReader.extractAxis mi p hd)
    simp only [List.foldl_cons]
    exact ⟨h2.1.trans h1.1, (h2.2.1.trans h1.2.1), (h2.2.2.trans h1.2.2)⟩

/-- `extract_value` as the extraction fold, when its guards pass. -/
theorem ev_eq_fold (rr : RotationReader) (s : Scene) (mi : Nat)
    (axs : List Axis) (hmi : rr.matrix_info = some mi)
    (hax : rr.axis = some axs) :
    rr.extract_value s = axs.foldl (RotationReader.extractAxis mi) (rr, s) := by
  unfold RotationReader.extract_value
  rw [hmi, hax]

/-- `extract_value` aborts when `axis` is unset. -/
theorem ev_skip_no_axis (rr : RotationReader) (s : Scene)
    (h : rr.axis = none) : rr.extract_value s = (rr, s) := by
  unfold RotationReader.extract_value
  cases hmi : rr.matrix_info
  · rfl
  · rw [h]

/-- `extract_value` rewrites only the per-axis output slots. -/
theorem ev_core (rr : RotationReader) (s : Scene) :
    (rr.extract_value s).1.core4 = rr.core4 ∧
    (rr.extract_value s).1.matrix_info = rr.matrix_info ∧
    (rr.extract_value s).1.maya_data = rr.maya_data := by
  cases hmi : rr.matrix_info with
  | none =>
    rw [ev_skip_no_mi rr s hmi]
    exact ⟨rfl, hmi, rfl⟩
  | some mi =>
    cases hax : rr.axis with
    | none =>
      rw [ev_skip_no_axis rr s hax]
      exact ⟨rfl, hmi, rfl⟩
    | some axs =>
      rw [ev_eq_fold rr s mi axs hmi hax]
      have h := ev_fold_core mi axs (rr, s)
      exact ⟨h.1, h.2.1.trans hmi, h.2.2⟩

/-- `extract_value` fills every requested axis slot. -/
theorem ev_Q (rr : RotationReader) (s : Scene) (mi : Nat) (axs : List Axis)
    (hmi : rr.matrix_info = some mi) (hax : rr.axis = some axs) :
    ∀ a ∈ axs, ((rr.extract_value s).1.extractedGet a).isSome := by
  rw [ev_eq_fold rr s mi axs hmi hax]
  exact fun a ha => ev_fold_all_some mi axs (rr, s) a ha

/-- `extract_value` with every requested axis already extracted is a
no-op. -/
theorem ev_skip (rr : RotationReader) (s : Scene)
    (h : ∀ mi axs, rr.matrix_info = some mi → rr.axis = some axs →
      ∀ a ∈ axs, (rr.extractedGet a).isSome) :
    rr.extract_value s = (rr, s) := by
  cases hmi : rr.matrix_info with
  | none => exact ev_skip_no_mi rr s hmi
  | some mi =>
    cases hax : rr.axis with
    | none => exact ev_skip_no_axis rr s hax
    | some axs =>
      rw [ev_eq_fold rr s mi axs hmi hax]
      exact ev_fold_skip mi axs (rr, s) (h mi axs hmi hax)

/-- `to_maya_data_node` rewrites only `maya_data` on the instance. -/
theorem tm_fields (rr : RotationReader) (s : Scene) :
    (rr.to_maya_data_node s).1.core4 = rr.core4 ∧
    (rr.to_maya_data_node s).1.matrix_info = rr.matrix_info ∧
    (rr.to_maya_data_node s).1.extracted_x = rr.extracted_x ∧
    (rr.to_maya_data_node s).1.extracted_y = rr.extracted_y ∧
    (rr.to_maya_data_node s).1.extracted_z = rr.extracted_z := by
  exact ⟨rfl, rfl, rfl, rfl, rfl⟩

end RebuildLemmas

/-- Per-writer corollaries: node counts, lengths and existence are stable
under the record-field writers. -/
theorem counts_writeCN (s : Scene) (i : Nat) (v : String) (k : NodeKind) :
    (s.updateNode i (writeCN v)).countKind k = s.countKind k :=
  countKind_updateNode s i (writeCN v) (fun _ => rfl) k

theorem counts_writeMI (s : Scene) (i v : Nat) (k : NodeKind) :
    (s.updateNode i (writeMI v)).countKind k = s.countKind k :=
  countKind_updateNode s i (writeMI v) (fun _ => rfl) k

theorem counts_writeEX (s : Scene) (i v : Nat) (k : NodeKind) :
    (s.updateNode i (writeEX v)).countKind k = s.countKind k :=
  countKind_updateNode s i (writeEX v) (fun _ => rfl) k

theorem counts_writeEY (s : Scene) (i v : Nat) (k : NodeKind) :
    (s.updateNode i (writeEY v)).countKind k = s.countKind k :=
  countKind_updateNode s i (writeEY v) (fun _ => rfl) k

theorem counts_writeEZ (s : Scene) (i v : Nat) (k : NodeKind) :
    (s.updateNode i (writeEZ v)).countKind k = s.countKind k :=
  countKind_updateNode s i (writeEZ v) (fun _ => rfl) k

theorem objExists_writeCN (s : Scene) (i : Nat) (v : String) (nm : String) :
    (s.updateNode i (writeCN v)).objExists nm = s.objExists nm :=
  objExists_updateNode s i (writeCN v) (fun _ => rfl) nm

theorem objExists_writeMI (s : Scene) (i v : Nat) (nm : String) :
    (s.updateNode i (writeMI v)).objExists nm = s.objExists nm :=
  objExists_updateNode s i (writeMI v) (fun _ => rfl) nm

theorem objExists_writeEX (s : Scene) (i v : Nat) (nm : String) :
    (s.updateNode i (writeEX v)).objExists nm = s.objExists nm :=
  objExists_updateNode s i (writeEX v) (fun _ => rfl) nm

theorem objExists_writeEY (s : Scene) (i v : Nat) (nm : String) :
    (s.updateNode i (writeEY v)).objExists nm = s.objExists nm :=
  objExists_updateNode s i (writeEY v) (fun _ => rfl) nm

theorem objExists_writeEZ (s : Scene) (i v : Nat) (nm : String) :
    (s.updateNode i (writeEZ v)).objExists nm = s.objExists nm :=
  objExists_updateNode s i (writeEZ v) (fun _ => rfl) nm

/-- `to_maya_data_node` leaves the record in existence. -/
theorem tm_objExists (rr : RotationReader) (s : Scene) :
    (rr.to_maya_data_node s).2.objExists
      (pyStr rr.name ++ "_rotReader_DATA") = true := by
  unfold RotationReader.to_maya_data_node
  by_cases hex : s.objExists (pyStr rr.name ++ "_rotReader_DATA")
  · simp only [hex, not_true_eq_false, if_false, reduceIte]
    cases rr.matrix_info <;> cases rr.extracted_x <;> cases rr.extracted_y <;>
      cases rr.extracted_z <;>
      simp [objExists_writeCN, objExists_writeMI, objExists_writeEX,
        objExists_writeEY, objExists_writeEZ, hex]
  · have hexf : s.objExists (pyStr rr.name ++ "_rotReader_DATA") = false := by
      simpa using hex
    have hnone := (objExists_false_iff _ _).mp hexf
    have hfr := freshName_of_not_exists _ _ hexf
    have hnew : (s.createNode .network (pyStr rr.name ++ "_rotReader_DATA")).2.2.objExists
        (pyStr rr.name ++ "_rotReader_DATA") = true := by
      unfold Scene.objExists Scene.createNode
      rw [findByName_addNode_none _ _ _ _ hnone]
      simp [hfr]
    simp only [hexf, Bool.false_eq_true, not_false_eq_true, if_true,
      Scene.createNode]
    cases rr.matrix_info <;> cases rr.extracted_x <;> cases rr.extracted_y <;>
      cases rr.extracted_z <;>
      simp [objExists_writeCN, objExists_writeMI, objExists_writeEX,
        objExists_writeEY, objExists_writeEZ]
        <;> simpa [Scene.createNode] using hnew

/-- When its record already exists, `to_maya_data_node` creates nothing:
node count and per-kind counts are unchanged. -/
theorem tm_counts_of_exists (rr : RotationReader) (s : Scene)
    (h : s.objExists (pyStr rr.name ++ "_rotReader_DATA") = true) :
    (rr.to_maya_data_node s).2.nodes.length = s.nodes.length ∧
    ∀ k, (rr.to_maya_data_node s).2.countKind k = s.countKind k := by
  unfold RotationReader.to_maya_data_node
  simp only [h, not_true_eq_false, if_false, reduceIte]
  cases rr.matrix_info <;> cases rr.extracted_x <;> cases rr.extracted_y <;>
    cases rr.extracted_z <;>
    exact ⟨by simp [length_updateNode],
      fun k => by simp [counts_writeCN, counts_writeMI, counts_writeEX,
        counts_writeEY, counts_writeEZ]⟩

/-- `build` reduces to `to_maya_data_node` when the first two stages
are no-ops. -/
theorem build_eq_tm (rr : RotationReader) (s : Scene)
    (hg : rr.get_local_space s = (rr, s))
    (he : rr.extract_value s = (rr, s)) :
    rr.build s = rr.to_maya_data_node s := by
  simp only [RotationReader.build, hg, he]

theorem core4_name {a b : RotationReader} (h : a.core4 = b.core4) :
    a.name = b.name := congrArg (fun q => q.1) h

theorem core4_target {a b : RotationReader} (h : a.core4 = b.core4) :
    a.target = b.target := congrArg (fun q => q.2.1) h

theorem core4_reference {a b : RotationReader} (h : a.core4 = b.core4) :
    a.reference = b.reference := congrArg (fun q => q.2.2.1) h

theorem core4_axis {a b : RotationReader} (h : a.core4 = b.core4) :
    a.axis = b.axis := congrArg (fun q => q.2.2.2) h

/-- C1 (amended): a second `build` on the same `RotationReader` instance
is creation-free — the node count and every per-kind node count of the
scene are unchanged, so there is exactly one extraction operator per axis
and one decomposition stage after the rebuild.  (Idempotency by name
alone does not hold; see the counterexample.) -/
theorem c1_same_instance_rebuild_creates_no_nodes
    (rr : RotationReader) (s : Scene) :
    ((rr.build s).1.build (rr.build s).2).2.nodes.length =
      (rr.build s).2.nodes.length ∧
    ∀ k, ((rr.build s).1.build (rr.build s).2).2.countKind k =
      (rr.build s).2.countKind k := by
  have hbuild : rr.build s =
      (((rr.get_local_space s).1.extract_value
          (rr.get_local_space s).2).1.to_maya_data_node
        ((rr.get_local_space s).1.extract_value (rr.get_local_space s).2).2) := rfl
  have hgl := gls_P rr s
  have hevc := ev_core (rr.get_local_space s).1 (rr.get_local_space s).2
  have htmc := tm_fields
    ((rr.get_local_space s).1.extract_value (rr.get_local_space s).2).1
    ((rr.get_local_space s).1.extract_value (rr.get_local_space s).2).2
  have hP : (rr.build s).1.target = none ∨ (rr.build s).1.reference = none ∨
      (rr.build s).1.matrix_info.isSome := by
    rw [hbuild]
    rcases hgl with h | h | h
    · exact Or.inl (by rw [core4_target htmc.1, core4_target hevc.1, h])
    · exact Or.inr (Or.inl (by rw [core4_reference htmc.1, core4_reference hevc.1, h]))
    · exact Or.inr (Or.inr (by rw [htmc.2.1, hevc.2.1]; exact h))
  have hexeq : ∀ a, (rr.build s).1.extractedGet a =
      (((rr.get_local_space s).1.extract_value
        (rr.get_local_space s).2).1.extractedGet a) := by
    intro a
    rw [hbuild]
    cases a <;>
      simp [RotationReader.extractedGet, htmc.2.2.1, htmc.2.2.2.1, htmc.2.2.2.2]
  have hQ : ∀ mi axs, (rr.build s).1.matrix_info = some mi →
      (rr.build s).1.axis = some axs →
      ∀ a ∈ axs, ((rr.build s).1.extractedGet a).isSome := by
    intro mi axs hmi hax a ha
    rw [hexeq a]
    have hmi2 : (rr.get_local_space s).1.matrix_info = some mi := by
      rw [← hevc.2.1, ← htmc.2.1, ← hbuild]
      exact hmi
    have hax2 : (rr.get_local_space s).1.axis = some axs := by
      rw [← core4_axis hevc.1, ← core4_axis htmc.1, ← hbuild]
      exact hax
    exact ev_Q _ _ mi axs hmi2 hax2 a ha
  have hg2 : (rr.build s).1.get_local_space (rr.build s).2 =
      ((rr.build s).1, (rr.build s).2) := gls_skip _ _ hP
  have he2 : (rr.build s).1.extract_value (rr.build s).2 =
      ((rr.build s).1, (rr.build s).2) := ev_skip _ _ hQ
  have hb2 : (rr.build s).1.build (rr.build s).2 =
      (rr.build s).1.to_maya_data_node (rr.build s).2 :=
    build_eq_tm _ _ hg2 he2
  have hnm : (rr.build s).1.name =
      (((rr.get_local_space s).1.extract_value
        (rr.get_local_space s).2).1.name) := by
    rw [hbuild]
    exact core4_name htmc.1
  have hobj : (rr.build s).2.objExists
      (pyStr (rr.build s).1.name ++ "_rotReader_DATA") = true := by
    rw [hnm, hbuild]
    exact tm_objExists _ _
  rw [hb2]
  exact tm_counts_of_exists _ _ hobj

/-- Construction of a reader through the four property setters (name,
target, reference, axis), as client code does. -/
def mkReader (s : Scene) (nm t r : String) (ax : AxisArg) : RotationReader :=
  { name := some nm
    target := setNodeRef s (some t)
    reference := setNodeRef s (some r)
    axis := get_valid_axis ax }

/-- C1 counterexample: two calls of `build` with the identical inputs
(name `n`, target `T`, reference `R`, axes `x`) issued from two fresh
instances, as the name-keyed reading of the claim allows.  The first
build leaves one operator per axis and one decomposition stage; the
second reuses the metadata record but duplicates the extraction
operator and the decomposition stage — the scene ends with two of
each. -/
theorem c1_counterexample :
    ((mkReader sceneTR "n" "T" "R" (.str "x")).build sceneTR).2.countKind
        .quatToEuler = 1 ∧
    ((mkReader sceneTR "n" "T" "R" (.str "x")).build sceneTR).2.countKind
        .decomposeMatrix = 1 ∧
    ((mkReader ((mkReader sceneTR "n" "T" "R" (.str "x")).build sceneTR).2
        "n" "T" "R" (.str "x")).build
      ((mkReader sceneTR "n" "T" "R" (.str "x")).build sceneTR).2).2.countKind
        .quatToEuler = 2 ∧
    ((mkReader ((mkReader sceneTR "n" "T" "R" (.str "x")).build sceneTR).2
        "n" "T" "R" (.str "x")).build
      ((mkReader sceneTR "n" "T" "R" (.str "x")).build sceneTR).2).2.countKind
        .decomposeMatrix = 2 := by
  refine ⟨rfl, rfl, rfl, rfl⟩

/-- Connecting leaves the node list alone. -/
theorem nodes_dgConnect (s : Scene) (src dst : Plug) :
    (s.dgConnect src dst).nodes = s.nodes := rfl

/-- Node count is untouched by a connect. -/
theorem countKind_dgConnect (s : Scene) (src dst : Plug) (k : NodeKind) :
    (s.dgConnect src dst).countKind k = s.countKind k := rfl

/-- The full effect of `extract_value` on one newly requested axis: the
instance gains exactly the new operator slot, the scene gains exactly one
`quatToEuler` node, and every pre-existing node (in particular any
metadata record) is untouched. -/
theorem ev_one_axis_effects (rr : RotationReader) (s : Scene) (mi : Nat)
    (a : Axis) (hmi : rr.matrix_info = some mi) (hax : rr.axis = some [a])
    (hnew : rr.extractedGet a = none) :
    (rr.extract_value s).1 = rr.extractedSet a s.nextId ∧
    (∀ nm n, s.findByName nm = some n → ¬n.id = s.nextId →
      (rr.extract_value s).2.findByName nm = some n) ∧
    (rr.extract_value s).2.nodes.length = s.nodes.length + 1 ∧
    ∀ k, (rr.extract_value s).2.countKind k =
      s.countKind k + (if k = .quatToEuler then 1 else 0) := by
  rw [ev_eq_fold rr s mi [a] hmi hax]
  simp only [List.foldl_cons, List.foldl_nil]
  simp only [RotationReader.extractAxis, hnew, Option.isSome_none,
    Bool.false_eq_true, if_false]
  refine ⟨rfl, ?_, ?_, ?_⟩
  · intro nm n hfind hne
    rw [findByName_updateNode _ _ (setRotOrder _) (fun _ => rfl)]
    rw [findByName_dgConnect, findByName_dgConnect]
    rw [Scene.createNode, findByName_addNode_some _ _ _ _ hfind]
    simp only [Option.map_some, Scene.createNode, Scene.addNode]
    simp [hne]
  · rw [length_updateNode]
    rw [show ∀ (t : Scene) (p q u v : Plug),
        ((t.dgConnect p q).dgConnect u v).nodes.length = t.nodes.length
      from fun t p q u v => rfl]
    rw [Scene.createNode, length_addNode]
  · intro k
    rw [countKind_updateNode _ _ (setRotOrder _) (fun _ => rfl) _]
    rw [countKind_dgConnect, countKind_dgConnect]
    rw [Scene.createNode, countKind_addNode]
    by_cases hk : k = NodeKind.quatToEuler
    · simp [hk]
    · rw [if_neg (fun h => hk h.symm), if_neg hk]

/-- C6: `add_axis` with a new axis on a record already holding x and y
operators leaves the existing operators' identities unchanged — both in
the returned instance and in the record's message fields — and adds
exactly one new `quatToEuler` operator for the new axis. -/
theorem c6_add_axis_extension_safety (s : Scene) (dataNm cn : String) (nd : SceneNode)
    (mi ix iy : Nat)
    (hfind : s.findByName dataNm = some nd)
    (hcn : nd.net_constructor_name = some cn)
    (hdn : dataNm = cn ++ "_rotReader_DATA")
    (hmi : nd.net_matrix_info = some mi)
    (hx : nd.net_extracted_x = some ix)
    (hy : nd.net_extracted_y = some iy)
    (hz : nd.net_extracted_z = none)
    (hndId : ¬nd.id = s.nextId) :
    (∃ rr', (RotationReader.add_axis s dataNm (.str "z")).1 = .ok (some rr') ∧
      rr'.extracted_x = some ix ∧ rr'.extracted_y = some iy ∧
      rr'.extracted_z = some s.nextId) ∧
    (RotationReader.add_axis s dataNm (.str "z")).2.nodes.length =
      s.nodes.length + 1 ∧
    (RotationReader.add_axis s dataNm (.str "z")).2.countKind .quatToEuler =
      s.countKind .quatToEuler + 1 ∧
    ((RotationReader.add_axis s dataNm (.str "z")).2.findByName dataNm).map
      (fun n => (n.net_matrix_info, n.net_extracted_x, n.net_extracted_y,
        n.net_extracted_z)) =
      some (some mi, some ix, some iy, some s.nextId) := by
  have hobj : s.objExists dataNm = true := by
    unfold Scene.objExists
    rw [hfind]
    rfl
  unfold RotationReader.add_axis
  simp only [hobj, not_true_eq_false, if_false, reduceIte, hfind,
    Option.getD_some, AxisArg.eqStr, hx, hy, hz, hmi, hcn,
    Option.isSome_some, Option.isSome_none, Bool.and_true, Bool.and_false,
    Bool.or_false, decide_eq_true_eq]
  have hguard : (decide ("z" = "x") || decide ("z" = "y")) = false := by decide
  simp only [hguard, Bool.false_eq_true, if_false]
  set rr0 : RotationReader :=
    { name := some cn, axis := get_valid_axis (AxisArg.str "z"),
      matrix_info := some mi, extracted_x := some ix, extracted_y := some iy,
      extracted_z := none } with hrr0
  have hEff := ev_one_axis_effects rr0 s mi Axis.z (by rw [hrr0])
    (by rw [hrr0]; simp [get_valid_axis, parseAxis])
    (by rw [hrr0]; simp [RotationReader.extractedGet])
  have hA := hEff.1
  have hFind := hEff.2.1
  have hLen := hEff.2.2.1
  have hCnt := hEff.2.2.2
  have hFnd : (rr0.extract_value s).2.findByName dataNm = some nd :=
    hFind dataNm nd hfind hndId
  have hobj2 : (rr0.extract_value s).2.objExists dataNm = true := by
    unfold Scene.objExists
    rw [hFnd]
    rfl
  have hname1 : (rr0.extract_value s).1.name = some cn := by
    rw [hA]
    rfl
  have hdnm : pyStr (rr0.extract_value s).1.name ++ "_rotReader_DATA" = dataNm := by
    rw [hname1, hdn]
    rfl
  have hmd : ((rr0.extract_value s).2.findIdByName dataNm).getD 0 = nd.id := by
    unfold Scene.findIdByName
    rw [hFnd]
    rfl
  have hobjName : (rr0.extract_value s).2.objExists
      (pyStr (rr0.extract_value s).1.name ++ "_rotReader_DATA") = true := by
    rw [hdnm]
    exact hobj2
  have hTM := tm_counts_of_exists (rr0.extract_value s).1 (rr0.extract_value s).2
    hobjName
  refine ⟨⟨((rr0.extract_value s).1.to_maya_data_node
      (rr0.extract_value s).2).1, rfl, ?_, ?_, ?_⟩, ?_, ?_, ?_⟩
  · rw [(tm_fields _ _).2.2.1, hA]
    simp [RotationReader.extractedSet, hrr0]
  · rw [(tm_fields _ _).2.2.2.1, hA]
    simp [RotationReader.extractedSet, hrr0]
  · rw [(tm_fields _ _).2.2.2.2, hA]
    simp [RotationReader.extractedSet]
  · rw [hTM.1, hLen]
  · rw [hTM.2 .quatToEuler, hCnt .quatToEuler]
    simp
  · unfold RotationReader.to_maya_data_node
    rw [hdnm]
    simp only [hobj2, not_true_eq_false, if_false, reduceIte]
    rw [hA]
    simp only [RotationReader.extractedSet]
    rw [findByName_updateNode _ _ (writeEZ _) (fun _ => rfl)]
    rw [findByName_updateNode _ _ (writeEY _) (fun _ => rfl)]
    rw [findByName_updateNode _ _ (writeEX _) (fun _ => rfl)]
    rw [findByName_updateNode _ _ (writeMI _) (fun _ => rfl)]
    rw [findByName_updateNode _ _ (writeCN _) (fun _ => rfl)]
    rw [hFnd]
    simp [hmd, writeCN, writeMI, writeEX, writeEY, writeEZ]

/-- A metadata record already holding x and y extraction operators. -/
def recNodeXY : SceneNode :=
  { id := 0, name := "m_rotReader_DATA", kind := .network,
    net_constructor_name := some "m", net_matrix_info := some 5,
    net_extracted_x := some 6, net_extracted_y := some 7 }

/-- A scene holding only `recNodeXY`. -/
def sceneRecXY : Scene := { nodes := [recNodeXY], nextId := 1 }

/-- C6 witness: extending the concrete x,y record with z. -/
theorem c6_witness :
    sceneRecXY.findByName "m_rotReader_DATA" = some recNodeXY ∧
    recNodeXY.net_extracted_z = none ∧
    ((∃ rr', (RotationReader.add_axis sceneRecXY "m_rotReader_DATA"
          (.str "z")).1 = .ok (some rr') ∧
        rr'.extracted_x = some 6 ∧ rr'.extracted_y = some 7 ∧
        rr'.extracted_z = some sceneRecXY.nextId) ∧
      (RotationReader.add_axis sceneRecXY "m_rotReader_DATA"
          (.str "z")).2.nodes.length = sceneRecXY.nodes.length + 1 ∧
      (RotationReader.add_axis sceneRecXY "m_rotReader_DATA"
          (.str "z")).2.countKind .quatToEuler =
        sceneRecXY.countKind .quatToEuler + 1 ∧
      ((RotationReader.add_axis sceneRecXY "m_rotReader_DATA"
          (.str "z")).2.findByName "m_rotReader_DATA").map
        (fun n => (n.net_matrix_info, n.net_extracted_x, n.net_extracted_y,
          n.net_extracted_z)) =
        some (some 5, some 6, some 7, some sceneRecXY.nextId)) :=
  ⟨rfl, rfl,
    c6_add_axis_extension_safety sceneRecXY "m_rotReader_DATA" "m" recNodeXY
      5 6 7 rfl rfl rfl rfl rfl rfl rfl (by decide)⟩

section CurveLemmas

/-- Curve lookup after rewriting the curve bound to a plug. -/
theorem curveFor_updCurveAt (s : Scene) (p q : String) (f : CurveData → CurveData) :
    (s.updCurveAt p f).curveFor q =
      if q = p then (s.curveFor q).map f else s.curveFor q := by
  unfold Scene.curveFor Scene.updCurveAt
  dsimp only
  rw [find?_map_pred (curveUpd p f) (fun n => n.drivenPlug = some q)
    (fun n => by
      unfold curveUpd
      by_cases h : n.drivenPlug = some p <;> simp [h]) _]
  cases hf : s.nodes.find? (fun n => n.drivenPlug = some q) with
  | none => by_cases hqp : q = p <;> simp [hqp]
  | some a =>
    have hp : a.drivenPlug = some q := by
      have := List.find?_some hf
      simpa using this
    by_cases hqp : q = p
    · subst hqp
      simp [curveUpd, hp]
    · have hnp : ¬a.drivenPlug = some p := by
        rw [hp]
        exact fun h => hqp (Option.some.inj h)
      simp [curveUpd, hnp, hqp]

/-- Renaming a curve does not change any curve lookup. -/
theorem curveFor_renameCurveAt (s : Scene) (p nm : String) (q : String) :
    (s.renameCurveAt p nm).curveFor q = s.curveFor q := by
  unfold Scene.curveFor Scene.renameCurveAt
  dsimp only
  rw [find?_map_pred (curveRen p nm) (fun n => n.drivenPlug = some q)
    (fun n => by
      unfold curveRen
      by_cases h : n.drivenPlug = some p <;> simp [h]) _]
  cases hf : s.nodes.find? (fun n => n.drivenPlug = some q) with
  | none => simp
  | some a =>
    have hp : a.drivenPlug = some q := by
      have := List.find?_some hf
      simpa using this
    by_cases hap : a.drivenPlug = some p <;> simp [curveRen, hap]

/-- Curve lookup through an id-keyed update that touches neither the
driven-plug binding nor the curve data. -/
theorem curveFor_updateNode (s : Scene) (i : Nat) (f : SceneNode → SceneNode)
    (hfp : ∀ n, (f n).drivenPlug = n.drivenPlug)
    (hfc : ∀ n, (f n).curve = n.curve) (q : String) :
    (s.updateNode i f).curveFor q = s.curveFor q := by
  unfold Scene.curveFor Scene.updateNode
  dsimp only
  rw [find?_map_pred (fun n => if n.id = i then f n else n)
    (fun n => n.drivenPlug = some q)
    (fun n => by by_cases h : n.id = i <;> simp [h, hfp]) _]
  cases hf : s.nodes.find? (fun n => n.drivenPlug = some q) with
  | none => simp
  | some a => by_cases ha : a.id = i <;> simp [ha, hfc]

/-- A curve lookup that already succeeds is unchanged by adding a node. -/
theorem curveFor_addNode_some (s : Scene) (req : String)
    (mk : Nat → String → SceneNode) (q : String) {c : CurveData}
    (h : s.curveFor q = some c) :
    (s.addNode req mk).2.2.curveFor q = some c := by
  unfold Scene.curveFor at h ⊢
  unfold Scene.addNode
  cases hf : s.nodes.find? (fun n => n.drivenPlug = some q) with
  | none => rw [hf] at h; cases h
  | some a =>
    rw [hf] at h
    rw [find?_append_some _ _ hf]
    exact h

/-- A failed curve lookup after adding a node inspects only the new
node. -/
theorem curveFor_addNode_none (s : Scene) (req : String)
    (mk : Nat → String → SceneNode) (q : String)
    (h : s.curveFor q = none) :
    (s.addNode req mk).2.2.curveFor q =
      if (mk s.nextId (s.freshName req)).drivenPlug = some q
      then some (mk s.nextId (s.freshName req)).curve else none := by
  unfold Scene.curveFor at h ⊢
  unfold Scene.addNode
  have hf : s.nodes.find? (fun n => n.drivenPlug = some q) = none := by
    cases hf : s.nodes.find? (fun n => n.drivenPlug = some q) with
    | none => rfl
    | some a => rw [hf] at h; cases h
  rw [find?_append_none _ _ hf]
  by_cases hn : (mk s.nextId (s.freshName req)).drivenPlug = some q <;>
    simp [List.find?, hn]

end CurveLemmas

section DrivenKeyLemmas

/-- First keyframe on a fresh driven plug: the curve is created holding
exactly that key. -/
theorem sdk_fresh (s : Scene) (driven driver : String) (dv v : ℚ)
    (ti to' : TanType) (h : s.curveFor driven = none) :
    (s.setDrivenKeyframe driven driver dv v ti to').curveFor driven =
      some { keys := [{ time := dv, value := v, inTan := ti, outTan := to' }] } := by
  unfold Scene.setDrivenKeyframe
  simp only [h]
  rw [curveFor_updCurveAt]
  rw [if_pos rfl]
  rw [curveFor_addNode_none _ _ _ _ h]
  simp [insertKey]

/-- A keyframe added to an existing driven curve. -/
theorem sdk_some (s : Scene) (driven driver : String) (dv v : ℚ)
    (ti to' : TanType) {c : CurveData} (h : s.curveFor driven = some c) :
    (s.setDrivenKeyframe driven driver dv v ti to').curveFor driven =
      some { c with keys := insertKey c.keys ⟨dv, v, ti, to'⟩ } := by
  unfold Scene.setDrivenKeyframe
  simp only [h]
  rw [curveFor_updCurveAt]
  rw [if_pos rfl, h]
  rfl

/-- A keyframe on one plug leaves every other plug's curve alone. -/
theorem sdk_frame (s : Scene) (driven driver : String) (dv v : ℚ)
    (ti to' : TanType) (q : String) (hq : ¬q = driven) :
    (s.setDrivenKeyframe driven driver dv v ti to').curveFor q =
      s.curveFor q := by
  unfold Scene.setDrivenKeyframe
  cases hc : s.curveFor driven with
  | some c =>
    rw [curveFor_updCurveAt, if_neg hq]
  | none =>
    rw [curveFor_updCurveAt, if_neg hq]
    cases hcq : s.curveFor q with
    | some c => rw [curveFor_addNode_some _ _ _ _ hcq]
    | none =>
      rw [curveFor_addNode_none _ _ _ _ hcq]
      rw [if_neg (by
        dsimp only
        exact fun hcontra => hq (Option.some.inj hcontra).symm)]

/-- The calibration loop on a fresh driven plug produces exactly the
calibration curve. -/
theorem processDriven_fresh (s : Scene) (dn dp p : String)
    (h : s.curveFor p = none) :
    (s.processDriven dn dp p).curveFor p = some calibrationCurve := by
  unfold Scene.processDriven
  simp only [List.foldl_cons, List.foldl_nil]
  have h1 := sdk_fresh s p dp (-90) (-1) .spline .spline h
  have h2 := sdk_some (s.setDrivenKeyframe p dp (-90) (-1) .spline .spline)
    p dp 0 0 .spline .spline h1
  rw [show insertKey [(⟨-90, -1, .spline, .spline⟩ : Key)]
      ⟨0, 0, .spline, .spline⟩ =
      [(⟨-90, -1, .spline, .spline⟩ : Key), ⟨0, 0, .spline, .spline⟩] by
    norm_num [insertKey]] at h2
  have h3 := sdk_some ((s.setDrivenKeyframe p dp (-90) (-1) .spline
      .spline).setDrivenKeyframe p dp 0 0 .spline .spline)
    p dp 90 1 .spline .spline h2
  rw [show insertKey
      [(⟨-90, -1, .spline, .spline⟩ : Key), ⟨0, 0, .spline, .spline⟩]
      ⟨90, 1, .spline, .spline⟩ =
      [(⟨-90, -1, .spline, .spline⟩ : Key), ⟨0, 0, .spline, .spline⟩,
        ⟨90, 1, .spline, .spline⟩] by
    norm_num [insertKey]] at h3
  simp only [h3]
  rw [curveFor_renameCurveAt]
  rw [curveFor_updCurveAt, if_pos rfl]
  rw [curveFor_updCurveAt, if_pos rfl]
  rw [curveFor_updCurveAt, if_pos rfl]
  rw [curveFor_updCurveAt, if_pos rfl]
  rw [h3]
  simp [modifyAt, calibrationCurve]

/-- The calibration loop touches only its own driven plug. -/
theorem processDriven_frame (s : Scene) (dn dp p : String) (q : String)
    (hq : ¬q = p) :
    (s.processDriven dn dp p).curveFor q = s.curveFor q := by
  unfold Scene.processDriven
  simp only [List.foldl_cons, List.foldl_nil]
  have hs3 : ∀ t : Scene,
      ((t.setDrivenKeyframe p dp 0 0 .spline .spline).setDrivenKeyframe
        p dp 90 1 .spline .spline).curveFor q = t.curveFor q := by
    intro t
    rw [sdk_frame _ _ _ _ _ _ _ _ hq, sdk_frame _ _ _ _ _ _ _ _ hq]
  cases hc : (((s.setDrivenKeyframe p dp (-90) (-1) .spline
      .spline).setDrivenKeyframe p dp 0 0 .spline
      .spline).setDrivenKeyframe p dp 90 1 .spline .spline).curveFor p with
  | none =>
    rw [hs3, sdk_frame _ _ _ _ _ _ _ _ hq]
  | some c =>
    rw [curveFor_renameCurveAt]
    rw [curveFor_updCurveAt, if_neg hq]
    rw [curveFor_updCurveAt, if_neg hq]
    rw [curveFor_updCurveAt, if_neg hq]
    rw [curveFor_updCurveAt, if_neg hq]
    rw [hs3, sdk_frame _ _ _ _ _ _ _ _ hq]

end DrivenKeyLemmas

section ConnectLemmas

/-- A node's reported name is stable under id- and name-preserving
updates. -/
theorem nodeName_updateNode (s : Scene) (i : Nat) (f : SceneNode → SceneNode)
    (hfi : ∀ n, (f n).id = n.id) (hfn : ∀ n, (f n).name = n.name) (j : Nat) :
    (s.updateNode i f).nodeName j = s.nodeName j := by
  unfold Scene.nodeName Scene.nodeById Scene.updateNode
  dsimp only
  rw [find?_map_pred (fun n => if n.id = i then f n else n)
    (fun n => n.id = j)
    (fun n => by by_cases h : n.id = i <;> simp [h, hfi]) _]
  cases hf : s.nodes.find? (fun n => n.id = j) with
  | none => simp
  | some a => by_cases ha : a.id = i <;> simp [ha, hfn]

/-- The per-channel fold leaves plugs outside its list alone. -/
theorem foldPlugs_frame (dn dp : String) (plugs : List String) :
    ∀ (s : Scene) (q : String), q ∉ plugs →
      (plugs.foldl (fun sc r => sc.processDriven dn dp r) s).curveFor q =
        s.curveFor q := by
  induction plugs with
  | nil => intro s q _; rfl
  | cons hd tl ih =>
    intro s q hq
    simp only [List.foldl_cons]
    rw [ih _ q (fun h => hq (List.mem_cons.mpr (Or.inr h)))]
    exact processDriven_frame s dn dp hd q
      (fun h => hq (List.mem_cons.mpr (Or.inl h)))

/-- The per-channel fold calibrates every plug of its list. -/
theorem foldPlugs_spec (dn dp : String) (plugs : List String) :
    ∀ (s : Scene), plugs.Nodup → (∀ p ∈ plugs, s.curveFor p = none) →
      ∀ p ∈ plugs,
        (plugs.foldl (fun sc r => sc.processDriven dn dp r) s).curveFor p =
          some calibrationCurve := by
  induction plugs with
  | nil => intro s _ _ p hp; cases hp
  | cons hd tl ih =>
    intro s hnd hfresh p hp
    simp only [List.foldl_cons]
    have hhd : hd ∉ tl := (List.nodup_cons.mp hnd).1
    rcases List.mem_cons.mp hp with hph | hpt
    · subst hph
      rw [foldPlugs_frame dn dp tl _ p hhd]
      exact processDriven_fresh s dn dp p (hfresh p (by simp))
    · refine ih _ (List.nodup_cons.mp hnd).2 ?_ p hpt
      intro r hr
      rw [processDriven_frame s dn dp hd r
        (fun h => hhd (h ▸ hr))]
      exact hfresh r (by simp [hr])

/-- One (axis, channels) pair leaves other plugs alone. -/
theorem connectPair_frame (dn : String) (rrOut : RotationReader) (s : Scene)
    (pr : Axis × ChanArg) (q : String)
    (hq : pr.2.truthy = true → q ∉ pr.2.channels.map (fun c => dn ++ "." ++ c)) :
    (connectPair dn rrOut s pr).curveFor q = s.curveFor q := by
  unfold connectPair
  by_cases ht : pr.2.truthy
  · simp only [ht, if_true]
    by_cases he : (pr.2.channels.map (fun c => dn ++ "." ++ c)).isEmpty
    · simp [he]
    · simp only [he, Bool.false_eq_true, if_false, reduceIte]
      exact foldPlugs_frame _ _ _ s q (hq ht)
  · simp [ht]

/-- One truthy (axis, channels) pair calibrates each of its channels. -/
theorem connectPair_spec (dn : String) (rrOut : RotationReader) (s : Scene)
    (pr : Axis × ChanArg) (ht : pr.2.truthy = true)
    (hnd : (pr.2.channels.map (fun c => dn ++ "." ++ c)).Nodup)
    (hfresh : ∀ p ∈ pr.2.channels.map (fun c => dn ++ "." ++ c),
      s.curveFor p = none)
    (c : String) (hc : c ∈ pr.2.channels) :
    (connectPair dn rrOut s pr).curveFor (dn ++ "." ++ c) =
      some calibrationCurve := by
  unfold connectPair
  have hmem : dn ++ "." ++ c ∈ pr.2.channels.map (fun r => dn ++ "." ++ r) :=
    List.mem_map.mpr ⟨c, hc, rfl⟩
  have hne : (pr.2.channels.map (fun r => dn ++ "." ++ r)).isEmpty = false := by
    cases hl : pr.2.channels.map (fun r => dn ++ "." ++ r) with
    | nil => rw [hl] at hmem; cases hmem
    | cons a t => rfl
  simp only [ht, if_true, hne, Bool.false_eq_true, if_false, reduceIte]
  exact foldPlugs_spec dn _ _ s hnd hfresh _ hmem

/-- Unfolding `PlugsOf` one pair at a time. -/
theorem PlugsOf_cons (dn : String) (pr : Axis × ChanArg)
    (tl : List (Axis × ChanArg)) :
    PlugsOf dn (pr :: tl) =
      if pr.2.truthy then
        pr.2.channels.map (fun c => dn ++ "." ++ c) ++ PlugsOf dn tl
      else PlugsOf dn tl := rfl

/-- The pair fold leaves plugs outside `PlugsOf` alone. -/
theorem connectFold_frame (dn : String) (rrOut : RotationReader) :
    ∀ (ad : List (Axis × ChanArg)) (s : Scene) (q : String),
      q ∉ PlugsOf dn ad →
      (ad.foldl (connectPair dn rrOut) s).curveFor q = s.curveFor q := by
  intro ad
  induction ad with
  | nil => intro s q _; rfl
  | cons pr tl ih =>
    intro s q hq
    rw [PlugsOf_cons] at hq
    simp only [List.foldl_cons]
    by_cases ht : pr.2.truthy
    · rw [if_pos ht] at hq
      rw [ih _ q (fun h => hq (List.mem_append.mpr (Or.inr h)))]
      exact connectPair_frame dn rrOut s pr q
        (fun _ h => hq (List.mem_append.mpr (Or.inl h)))
    · rw [if_neg ht] at hq
      rw [ih _ q hq]
      exact connectPair_frame dn rrOut s pr q (fun h => absurd h ht)

/-- The pair fold calibrates every channel of every truthy pair, as long
as the driven plugs are distinct and fresh. -/
theorem connectFold_spec (dn : String) (rrOut : RotationReader) :
    ∀ (ad : List (Axis × ChanArg)) (s : Scene),
      (PlugsOf dn ad).Nodup →
      (∀ p ∈ PlugsOf dn ad, s.curveFor p = none) →
      ∀ pr ∈ ad, pr.2.truthy = true → ∀ c ∈ pr.2.channels,
        (ad.foldl (connectPair dn rrOut) s).curveFor (dn ++ "." ++ c) =
          some calibrationCurve := by
  intro ad
  induction ad with
  | nil => intro s _ _ pr hpr; cases hpr
  | cons pr0 tl ih =>
    intro s hnd hfresh pr hpr ht c hc
    simp only [List.foldl_cons]
    rcases List.mem_cons.mp hpr with hp0 | hptl
    · subst hp0
      rw [PlugsOf_cons, if_pos ht] at hnd hfresh
      have hnd3 := List.nodup_append.mp hnd
      have hq : dn ++ "." ++ c ∈ pr.2.channels.map (fun r => dn ++ "." ++ r) :=
        List.mem_map.mpr ⟨c, hc, rfl⟩
      rw [connectFold_frame dn rrOut tl _ _
        (fun h => hnd3.2.2 hq h)]
      exact connectPair_spec dn rrOut s pr ht hnd3.1
        (fun p hp => hfresh p (List.mem_append.mpr (Or.inl hp))) c hc
    · by_cases ht0 : pr0.2.truthy
      · rw [PlugsOf_cons, if_pos ht0] at hnd hfresh
        have hnd3 := List.nodup_append.mp hnd
        refine ih _ hnd3.2.1 ?_ pr hptl ht c hc
        intro p hp
        rw [connectPair_frame dn rrOut s pr0 p
          (fun _ hmem => hnd3.2.2 hmem hp)]
        exact hfresh p (List.mem_append.mpr (Or.inr hp))
      · rw [PlugsOf_cons, if_neg ht0] at hnd hfresh
        refine ih _ hnd ?_ pr hptl ht c hc
        intro p hp
        rw [connectPair_frame dn rrOut s pr0 p (fun h => absurd h ht0)]
        exact hfresh p hp

end ConnectLemmas

/-- C2: `connect_rotation_reader_to_driver_dag` wires, for every truthy
(axis, channel-list) pair and every channel, a driven curve with exactly
the three calibration samples (−90 → −1 with spline tangents, 0 → 0 with
its tangents forced linear, +90 → +1 with spline tangents) and linear
pre- and post-infinity; with linear (never clamped) extrapolation the
value at driver angle 180 is 2, the point on the line through (0, 0) and
(90, 1). -/
theorem c2_driven_curve_calibration (fk : FkDriven) (rrOut : RotationReader)
    (md : Nat) (s : Scene) (d : Nat) (ad : List (Axis × ChanArg))
    (hd : fk.driver = some d) (ha : fk.axis_data = some ad)
    (hnd : (PlugsOf (s.nodeName d) ad).Nodup)
    (hfresh : ∀ p ∈ PlugsOf (s.nodeName d) ad, s.curveFor p = none) :
    (fk.connectReader rrOut md s).2 = none ∧
    calibrationCurve.keys =
      [(⟨-90, -1, .spline, .spline⟩ : Key), ⟨0, 0, .linear, .linear⟩,
        ⟨90, 1, .spline, .spline⟩] ∧
    calibrationCurve.preInf = .linear ∧
    calibrationCurve.postInf = .linear ∧
    calibrationCurve.postValue 180 = 2 ∧
    lineThrough 0 0 90 1 180 = 2 ∧
    ∀ pr ∈ ad, pr.2.truthy = true → ∀ c ∈ pr.2.channels,
      (fk.connectReader rrOut md s).1.curveFor (s.nodeName d ++ "." ++ c) =
        some calibrationCurve := by
  have hred : fk.connectReader rrOut md s =
      (ad.foldl (connectPair
          (((s.updateNode md unlockDrive).updateNode md
            (writeDrive d)).nodeName d) rrOut)
        ((s.updateNode md unlockDrive).updateNode md (writeDrive d)), none) := by
    unfold FkDriven.connectReader
    rw [hd, ha]
  have hdn : ((s.updateNode md unlockDrive).updateNode md
      (writeDrive d)).nodeName d = s.nodeName d := by
    rw [nodeName_updateNode _ _ (writeDrive d) (fun _ => rfl) (fun _ => rfl)]
    rw [nodeName_updateNode _ _ unlockDrive (fun _ => rfl) (fun _ => rfl)]
  have hcf : ∀ p, ((s.updateNode md unlockDrive).updateNode md
      (writeDrive d)).curveFor p = s.curveFor p := by
    intro p
    rw [curveFor_updateNode _ _ (writeDrive d) (fun _ => rfl) (fun _ => rfl)]
    rw [curveFor_updateNode _ _ unlockDrive (fun _ => rfl) (fun _ => rfl)]
  refine ⟨by rw [hred], rfl, rfl, rfl, ?_, ?_, ?_⟩
  · norm_num [CurveData.postValue, CurveData.endSlope, calibrationCurve]
  · norm_num [lineThrough]
  · intro pr hpr ht c hc
    rw [hred]
    dsimp only
    rw [hdn]
    refine connectFold_spec (s.nodeName d) rrOut ad _ hnd ?_ pr hpr ht c hc
    intro p hp
    rw [hcf p]
    exact hfresh p hp

/-- `sceneDrv` plus the driver's metadata record. -/
def sceneC2 : Scene := (sceneDrv.createNode .network "w_rotReader_DATA").2.2

/-- A driven-mapping instance bound to the concrete driver node. -/
def fkC2 : FkDriven :=
  { name := some "w", driver := some 2,
    axis_data := some [(Axis.z, ChanArg.list ["tx", "ty"])] }

/-- C2 witness: the calibration at a concrete driver and channel pair. -/
theorem c2_witness :
    fkC2.driver = some 2 ∧
    fkC2.axis_data = some [(Axis.z, ChanArg.list ["tx", "ty"])] ∧
    (PlugsOf (sceneC2.nodeName 2) [(Axis.z, ChanArg.list ["tx", "ty"])]).Nodup ∧
    (∀ p ∈ PlugsOf (sceneC2.nodeName 2) [(Axis.z, ChanArg.list ["tx", "ty"])],
      sceneC2.curveFor p = none) ∧
    ((fkC2.connectReader {} 3 sceneC2).2 = none ∧
      calibrationCurve.keys =
        [(⟨-90, -1, .spline, .spline⟩ : Key), ⟨0, 0, .linear, .linear⟩,
          ⟨90, 1, .spline, .spline⟩] ∧
      calibrationCurve.preInf = .linear ∧
      calibrationCurve.postInf = .linear ∧
      calibrationCurve.postValue 180 = 2 ∧
      lineThrough 0 0 90 1 180 = 2 ∧
      ∀ pr ∈ [(Axis.z, ChanArg.list ["tx", "ty"])], pr.2.truthy = true →
        ∀ c ∈ pr.2.channels,
          (fkC2.connectReader {} 3 sceneC2).1.curveFor
            (sceneC2.nodeName 2 ++ "." ++ c) = some calibrationCurve) :=
  ⟨rfl, rfl, by decide, by decide,
    c2_driven_curve_calibration fkC2 {} 3 sceneC2 2
      [(Axis.z, ChanArg.list ["tx", "ty"])] rfl rfl (by decide) (by decide)⟩

end Cortex
